import Mathlib

/-!
Verification development for the doc-crawler repository
(`docsqa` backend: MDX parser, chunker, rule analyzers, verifier, pipeline).

Shallow embedding conventions:
* Python strings are Lean `String`s; where the Python code iterates over
  `str.splitlines()` / `str.split('\n')` output, the embedding takes the
  corresponding `List String` of lines (or splits with the helper below).
* Machine integers are `Nat`/`Int`; Python `//` on negatives is `Int.fdiv`.
* Fallible code (`try`/`except`, regex match failure raising `ValueError`)
  returns `Option`.
* External collaborators (tiktoken token counting, the `markdown` renderer,
  the `frontmatter` YAML loader, the link-check HTTP client) are parameters
  of the embedded functions; everything else is translated from the source.
-/

set_option autoImplicit false

namespace DocsQA

/-! ### Python-style string helpers (ASCII semantics of the operations used) -/

/-- Split a character list at newline characters, the model of
Python `str.split('\n')` used throughout the source. -/
def splitNlChars : List Char → List String
  | [] => [""]
  | c :: cs =>
    if c = '\n' then
      "" :: splitNlChars cs
    else
      match splitNlChars cs with
      | [] => [String.mk [c]]
      | s :: rest => String.mk (c :: s.data) :: rest

/-- Model of Python `text.split('\n')`. -/
def splitNl (s : String) : List String :=
  splitNlChars s.data

/-- Model of Python `'\n'.join(lines)`. -/
def joinNl : List String → String
  | [] => ""
  | [s] => s
  | s :: rest => s ++ "\n" ++ joinNl rest

/-- Whitespace test matching the characters Python `str.strip()` removes
(ASCII fragment). -/
def isPySpace (c : Char) : Bool :=
  c = ' ' ∨ c = '\t' ∨ c = '\n' ∨ c = '\r' ∨ c = '\x0b' ∨ c = '\x0c'

/-- Model of Python `str.strip()` (no arguments). -/
def pyStrip (s : String) : String :=
  String.mk (((s.data.dropWhile isPySpace).reverse.dropWhile isPySpace).reverse)

/-- Model of Python `str.startswith(p)`. -/
def pyStartsWith (s p : String) : Bool :=
  p.data.isPrefixOf s.data

/-- Model of Python `s[n:]` for a nonnegative index. -/
def pyDrop (s : String) (n : Nat) : String :=
  String.mk (s.data.drop n)

/-- Model of Python `sub in s` (substring containment) on char lists. -/
def hasSubstrList (pat : List Char) : List Char → Bool
  | [] => pat.isEmpty
  | c :: cs => pat.isPrefixOf (c :: cs) || hasSubstrList pat cs

/-- Model of Python `sub in s` on strings. -/
def hasSubstr (s pat : String) : Bool :=
  hasSubstrList pat.data s.data

/-- Model of Python `str.lower()` (ASCII fragment). -/
def pyLower (s : String) : String :=
  String.mk (s.data.map Char.toLower)

/-- Model of Python `str.replace(old, new)` for a nonempty pattern,
with explicit fuel (the source string length suffices). -/
def pyReplaceAux (oldp newp : List Char) : Nat → List Char → List Char
  | _, [] => []
  | 0, cs => cs
  | fuel + 1, c :: cs =>
    if oldp ≠ [] ∧ oldp.isPrefixOf (c :: cs) then
      newp ++ pyReplaceAux oldp newp fuel ((c :: cs).drop oldp.length)
    else
      c :: pyReplaceAux oldp newp fuel cs

/-- Model of Python `s.replace(old, new)` (nonempty `old`). -/
def pyReplace (s oldp newp : String) : String :=
  String.mk (pyReplaceAux oldp.data newp.data s.data.length s.data)

/-- Python truthiness of an `Optional[int]` (`None` and `0` are falsy). -/
def intTruthy : Option Nat → Bool
  | none => false
  | some n => n ≠ 0

/-! ### `VerificationResult` (src/docsqa/backend/core/verifier.py, lines 16-39) -/

/-- State of `VerificationResult`: `can_auto_apply` starts `true`;
`warnings`/`errors`/`notes` start empty and grow by appending at the end,
as the Python lists do. -/
structure VerificationResult where
  can_auto_apply : Bool
  warnings : List String
  errors : List String
  notes : List String
  deriving DecidableEq, Repr

/-- `VerificationResult.__init__`. -/
def VerificationResult.init : VerificationResult :=
  { can_auto_apply := true, warnings := [], errors := [], notes := [] }

/-- `VerificationResult.add_warning`. -/
def VerificationResult.add_warning (r : VerificationResult) (message : String) :
    VerificationResult :=
  { r with warnings := r.warnings ++ [message] }

/-- `VerificationResult.add_error`: appends the message and sets
`can_auto_apply` to `False`. -/
def VerificationResult.add_error (r : VerificationResult) (message : String) :
    VerificationResult :=
  { r with errors := r.errors ++ [message], can_auto_apply := false }

/-- `VerificationResult.add_note`. -/
def VerificationResult.add_note (r : VerificationResult) (message : String) :
    VerificationResult :=
  { r with notes := r.notes ++ [message] }

/-- One mutating operation on a `VerificationResult`, as invoked by the
checks inside `Verifier.verify_suggestion`. -/
inductive VROp where
  | addWarning (message : String)
  | addError (message : String)
  | addNote (message : String)
  deriving DecidableEq, Repr

/-- Apply one operation. -/
def VROp.apply (r : VerificationResult) : VROp → VerificationResult
  | .addWarning m => r.add_warning m
  | .addError m => r.add_error m
  | .addNote m => r.add_note m

/-- Apply a sequence of operations in order. -/
def applyVROps (r : VerificationResult) (ops : List VROp) : VerificationResult :=
  ops.foldl VROp.apply r

/-- Whether an operation is an `add_error`. -/
def VROp.isError : VROp → Bool
  | .addError _ => true
  | _ => false

theorem applyVROps_nil (r : VerificationResult) : applyVROps r [] = r := rfl

theorem applyVROps_cons (r : VerificationResult) (op : VROp) (ops : List VROp) :
    applyVROps r (op :: ops) = applyVROps (op.apply r) ops := rfl

/-- `add_warning`/`add_note` preserve the flag; `add_error` clears it. -/
theorem canAutoApply_op (r : VerificationResult) (op : VROp) :
    (op.apply r).can_auto_apply = (r.can_auto_apply && !op.isError) := by
  cases op <;> cases h : r.can_auto_apply <;>
    simp [VROp.apply, VROp.isError, VerificationResult.add_warning,
      VerificationResult.add_error, VerificationResult.add_note, h]

/-- After any operation sequence, the flag is the initial flag and-ed with
"no error occurred in the sequence". -/
theorem canAutoApply_applyVROps (r : VerificationResult) (ops : List VROp) :
    (applyVROps r ops).can_auto_apply =
      (r.can_auto_apply && ops.all (fun op => !op.isError)) := by
  induction ops generalizing r with
  | nil => simp [applyVROps]
  | cons op ops ih =>
    rw [applyVROps_cons, ih, canAutoApply_op]
    cases op <;> simp [VROp.isError]

/-! ### Unified diffs (src/docsqa/backend/core/patches.py) -/

/-- One classified content line of a hunk (`type` is `"added"`,
`"removed"` or `"context"`). -/
structure HunkLine where
  type : String
  content : String
  deriving DecidableEq, Repr

/-- One hunk of a parsed unified diff. -/
structure Hunk where
  original_start : Nat
  original_count : Nat
  modified_start : Nat
  modified_count : Nat
  lines : List HunkLine
  deriving DecidableEq, Repr

/-- One file change of a parsed unified diff. -/
structure DiffChange where
  original_file : String
  modified_file : Option String
  hunks : List Hunk
  deriving DecidableEq, Repr

/-- Digit run to `Nat` (`int(...)` on a `\d+` capture). -/
def digitsToNat (ds : List Char) : Nat :=
  ds.foldl (fun n c => n * 10 + (c.toNat - '0'.toNat)) 0

/-- `parse_hunk_header` (patches.py lines 106-125): the anchored regex
`@@ -(\d+)(?:,(\d+))? \+(\d+)(?:,(\d+))? @@` with missing counts
defaulting to 1; `none` models the `ValueError` on a failed match.
The greedy groups make the match deterministic, so this sequential
parse computes exactly the regex result. -/
def parseHunkHeader (hunk_line : String) : Option (Nat × Nat × Nat × Nat) :=
  match hunk_line.data with
  | '@' :: '@' :: ' ' :: '-' :: rest =>
    let (d1, rest) := rest.span Char.isDigit
    if d1 = [] then none else
    let step1 : Option (Nat × List Char) :=
      match rest with
      | ',' :: r2 =>
        let (d2, r3) := r2.span Char.isDigit
        if d2 = [] then none else some (digitsToNat d2, r3)
      | r2 => some (1, r2)
    match step1 with
    | none => none
    | some (oc, rest) =>
      match rest with
      | ' ' :: '+' :: rest =>
        let (d3, rest) := rest.span Char.isDigit
        if d3 = [] then none else
        let step2 : Option (Nat × List Char) :=
          match rest with
          | ',' :: r2 =>
            let (d4, r3) := r2.span Char.isDigit
            if d4 = [] then none else some (digitsToNat d4, r3)
          | r2 => some (1, r2)
        match step2 with
        | none => none
        | some (mc, rest) =>
          match rest with
          | ' ' :: '@' :: '@' :: _ =>
            some (digitsToNat d1, oc, digitsToNat d3, mc)
          | _ => none
      | _ => none
  | _ => none

/-- Append a classified content line to the last hunk of a change
(`current_change['hunks'][-1]['lines'].append(...)`). -/
def DiffChange.addHunkLine (c : DiffChange) (hl : HunkLine) : DiffChange :=
  match c.hunks.getLast? with
  | none => c
  | some h =>
    { c with hunks := c.hunks.dropLast ++ [{ h with lines := h.lines ++ [hl] }] }

/-- One iteration of the `for line in diff_content.splitlines()` loop of
`parse_unified_diff` (patches.py lines 66-98); state is
`(changes, current_change)`, `none` models a propagated `ValueError`. -/
def parseDiffStep (st : List DiffChange × Option DiffChange) (line : String) :
    Option (List DiffChange × Option DiffChange) :=
  let acc := st.1
  let current := st.2
  if pyStartsWith line "---" then
    let acc2 := match current with
      | some c => acc ++ [c]
      | none => acc
    some (acc2,
      some { original_file := pyStrip (pyDrop line 4), modified_file := none, hunks := [] })
  else if pyStartsWith line "+++" then
    match current with
    | some c => some (acc, some { c with modified_file := some (pyStrip (pyDrop line 4)) })
    | none => some (acc, none)
  else if pyStartsWith line "@@" then
    match current with
    | some c =>
      match parseHunkHeader line with
      | none => none
      | some (os, oc, ms, mc) =>
        some (acc, some { c with hunks := c.hunks ++ [⟨os, oc, ms, mc, []⟩] })
    | none => some (acc, none)
  else
    match current with
    | some c =>
      if c.hunks ≠ [] then
        if pyStartsWith line "+" then
          some (acc, some (c.addHunkLine { type := "added", content := pyDrop line 1 }))
        else if pyStartsWith line "-" then
          some (acc, some (c.addHunkLine { type := "removed", content := pyDrop line 1 }))
        else if pyStartsWith line " " then
          some (acc, some (c.addHunkLine { type := "context", content := pyDrop line 1 }))
        else some (acc, some c)
      else some (acc, some c)
    | none => some (acc, none)

/-- `parse_unified_diff` (patches.py lines 61-103), over the line list of
the diff text; `none` models the `ValueError` raised by a malformed hunk
header. -/
def parseUnifiedDiff (diffLines : List String) : Option (List DiffChange) :=
  match diffLines.foldlM parseDiffStep ([], none) with
  | none => none
  | some (acc, some c) => some (acc ++ [c])
  | some (acc, none) => some acc

/-- `validate_patch_scope` (patches.py lines 128-145): `false` if parsing
fails (the `except` clause) or any hunk's original range leaves
`[allowed_line_start, allowed_line_end]`. -/
def validatePatchScope (patchLines : List String)
    (allowed_line_start allowed_line_end : Int) : Bool :=
  match parseUnifiedDiff patchLines with
  | none => false
  | some changes =>
    changes.all fun c => c.hunks.all fun h =>
      !(decide ((h.original_start : Int) < allowed_line_start) ||
        decide ((h.original_start : Int) + (h.original_count : Int) - 1 > allowed_line_end))

/-- The original/modified snippet pair extracted from a patch. -/
structure Snippets where
  original : String
  modified : String
  deriving DecidableEq, Repr

/-- The snippet pair built from one hunk: original = context+removed lines,
modified = context+added lines, each joined with newlines. -/
def snippetsOfHunk (h : Hunk) : Snippets :=
  { original := joinNl ((h.lines.filter fun l =>
      l.type = "context" ∨ l.type = "removed").map HunkLine.content),
    modified := joinNl ((h.lines.filter fun l =>
      l.type = "context" ∨ l.type = "added").map HunkLine.content) }

/-- `extract_snippet_from_patch` (patches.py lines 148-174): `None` when
parsing fails, there is no change, or the first change has no hunks;
otherwise the snippets of `changes[0]['hunks'][0]`. -/
def extractSnippetFromPatch (patchLines : List String) : Option Snippets :=
  match parseUnifiedDiff patchLines with
  | none => none
  | some [] => none
  | some (c :: _) =>
    match c.hunks with
    | [] => none
    | h :: _ => some (snippetsOfHunk h)

/-- Python `str.splitlines()` restricted to `'\n'` separators. -/
def pySplitlines (s : String) : List String :=
  if s.data = [] then []
  else if s.data.getLast? = some '\n' then (splitNl s).dropLast
  else splitNl s

/-- `count_whitespace_changes` (patches.py lines 238-257): the number of
line positions where the stripped contents agree but the raw lines differ,
comparing up to the longer of the two line lists with `""` padding. -/
def countWhitespaceChanges (original_content modified_content : String) : Nat :=
  let ol := pySplitlines original_content
  let ml := pySplitlines modified_content
  (List.range (max ol.length ml.length)).foldl
    (fun acc i =>
      let o := ol.getD i ""
      let m := ml.getD i ""
      if pyStrip o = pyStrip m ∧ o ≠ m then acc + 1 else acc) 0

/-! ### Verifier checks (src/docsqa/backend/core/verifier.py) -/

/-- Word character of the regex `\w` (ASCII fragment). -/
def isWordChar (c : Char) : Bool :=
  c.isAlphanum || c = '_'

/-- Occurrences captured by `re.findall(r'<(\w+)', html)` in
`_count_html_tags` (verifier.py lines 142-148), with fuel (the input
length suffices: every step consumes at least one character). -/
def extractHtmlTagsAux : Nat → List Char → List String
  | 0, _ => []
  | _, [] => []
  | fuel + 1, c :: cs =>
    if c = '<' then
      let w := cs.takeWhile isWordChar
      if w = [] then extractHtmlTagsAux fuel cs
      else String.mk w :: extractHtmlTagsAux fuel (cs.dropWhile isWordChar)
    else extractHtmlTagsAux fuel cs

/-- Tag occurrences of `_count_html_tags` as a list. -/
def extractHtmlTags (html : String) : List String :=
  extractHtmlTagsAux html.data.length html.data

/-- Equality of the two tag-count dictionaries compared by
`_check_markdown_consistency`: same tags with the same multiplicities. -/
def tagCountsEqual (a b : List String) : Bool :=
  a.all (fun t => a.count t == b.count t) && b.all (fun t => b.count t == a.count t)

/-- `Verifier._check_patch_scope` (verifier.py lines 94-104): on a scope
violation it records the error (which clears `can_auto_apply`) and
signals the caller to stop.  (`validate_patch_scope` never raises, so
the `except` branch is unreachable.) -/
def checkPatchScope (patchLines : List String) (allowed_start allowed_end : Int)
    (result : VerificationResult) : VerificationResult × Bool :=
  if validatePatchScope patchLines allowed_start allowed_end then (result, true)
  else (result.add_error "Patch affects lines outside the allowed range", false)

/-- `Verifier._check_markdown_consistency` (verifier.py lines 106-140);
`md` abstracts the external `markdown` renderer (`self.md.convert`). -/
def checkMarkdownConsistency (md : String → String) (allow_code_edits : Bool)
    (suggestion_type : String) (patchLines : List String)
    (result : VerificationResult) : VerificationResult × Bool :=
  match extractSnippetFromPatch patchLines with
  | none => (result.add_warning "Could not extract snippets from patch", true)
  | some sn =>
    let original_html := md sn.original
    let modified_html := md sn.modified
    if suggestion_type = "text_edit" then
      if ¬ tagCountsEqual (extractHtmlTags original_html) (extractHtmlTags modified_html) then
        (result.add_warning "Markdown structure changed significantly", true)
      else (result, true)
    else if suggestion_type = "code_edit" ∧ ¬ allow_code_edits then
      (result.add_error "Code edits are not allowed by configuration", false)
    else (result, true)

/-- `Verifier._check_whitespace_churn` (verifier.py lines 150-172). -/
def checkWhitespaceChurn (max_whitespace_delta_lines : Nat) (patchLines : List String)
    (result : VerificationResult) : VerificationResult × Bool :=
  match extractSnippetFromPatch patchLines with
  | none => (result, true)
  | some sn =>
    let whitespace_changes := countWhitespaceChanges sn.original sn.modified
    if whitespace_changes > max_whitespace_delta_lines then
      (result.add_error ("Too many whitespace-only changes: " ++ toString whitespace_changes),
        false)
    else (result, true)

/-- `Verifier.verify_suggestion` (verifier.py lines 54-92): the sequential
short-circuiting pipeline.  Checks 4-7 (citations, code-edit policy, link
and version validation) depend on external collaborators and are abstract
parameters; checks 1-3 are the concrete functions above. -/
def verifySuggestion (md : String → String) (allow_code_edits : Bool)
    (max_whitespace_delta_lines : Nat)
    (validate_citations check_code_edits : VerificationResult → VerificationResult × Bool)
    (validate_links validate_versions : VerificationResult → VerificationResult)
    (patchLines : List String) (line_start line_end : Int)
    (suggestion_type : String) : VerificationResult :=
  let r0 := VerificationResult.init
  let s1 := checkPatchScope patchLines line_start line_end r0
  if s1.2 = false then s1.1 else
  let s2 := checkMarkdownConsistency md allow_code_edits suggestion_type patchLines s1.1
  if s2.2 = false then s2.1 else
  let s3 := checkWhitespaceChurn max_whitespace_delta_lines patchLines s2.1
  if s3.2 = false then s3.1 else
  let s4 := validate_citations s3.1
  if s4.2 = false then s4.1 else
  let s5 := check_code_edits s4.1
  if s5.2 = false then s5.1 else
  validate_versions (validate_links s5.1)

/-! ### Claim C1 -/

/-- C1: `VerificationResult` is monotonic — once `can_auto_apply` is
false, no later `add_warning`/`add_error`/`add_note` operation within the
same verification call sets it back to true; and starting from a fresh
result, after any operation sequence `can_auto_apply` is false exactly
when at least one `add_error` occurred. -/
theorem C1_verification_result_monotonic :
    (∀ (r : VerificationResult) (ops : List VROp),
        r.can_auto_apply = false → (applyVROps r ops).can_auto_apply = false) ∧
    (∀ ops : List VROp,
        (applyVROps VerificationResult.init ops).can_auto_apply = false ↔
          ∃ op ∈ ops, op.isError = true) := by
  refine ⟨fun r ops h => ?_, fun ops => ?_⟩
  · rw [canAutoApply_applyVROps, h, Bool.false_and]
  · rw [canAutoApply_applyVROps]
    show (true && ops.all fun op => !op.isError) = false ↔ _
    simp [List.all_eq_true]

/-- Witness for C1 at a concrete operation sequence. -/
theorem C1_verification_result_monotonic_witness :
    (applyVROps
        { can_auto_apply := false, warnings := [], errors := ["e"], notes := [] }
        [VROp.addWarning "w", VROp.addNote "n"]).can_auto_apply = false ∧
    ((applyVROps VerificationResult.init
        [VROp.addWarning "w", VROp.addError "e"]).can_auto_apply = false ↔
      ∃ op ∈ [VROp.addWarning "w", VROp.addError "e"], op.isError = true) :=
  ⟨C1_verification_result_monotonic.1 _ _ rfl,
   C1_verification_result_monotonic.2 _⟩

/-! ### Claim C2 -/

/-- C2: if the parsed unified diff has a hunk whose original-file range
leaves the allowed `[line_start, line_end]`, then `validate_patch_scope`
returns false and `verify_suggestion` yields exactly one error, clears
`can_auto_apply`, and returns without running any of the remaining checks
(the result is the same for every renderer, configuration and abstract
later check, so none of them was consulted). -/
theorem C2_patch_scope_gating (patchLines : List String) (line_start line_end : Int)
    (changes : List DiffChange)
    (hparse : parseUnifiedDiff patchLines = some changes)
    (hviol : ∃ c ∈ changes, ∃ h ∈ c.hunks,
      (h.original_start : Int) < line_start ∨
      (h.original_start : Int) + (h.original_count : Int) - 1 > line_end) :
    validatePatchScope patchLines line_start line_end = false ∧
    ∀ (md : String → String) (allow_code_edits : Bool) (maxw : Nat)
      (c4 c5 : VerificationResult → VerificationResult × Bool)
      (c6 c7 : VerificationResult → VerificationResult) (stype : String),
      verifySuggestion md allow_code_edits maxw c4 c5 c6 c7
          patchLines line_start line_end stype =
        { can_auto_apply := false, warnings := [],
          errors := ["Patch affects lines outside the allowed range"], notes := [] } := by
  have hfalse : validatePatchScope patchLines line_start line_end = false := by
    obtain ⟨c, hc, h, hh, hv⟩ := hviol
    unfold validatePatchScope
    rw [hparse]
    rw [List.all_eq_false]
    refine ⟨c, hc, ?_⟩
    rw [Bool.not_eq_true, List.all_eq_false]
    refine ⟨h, hh, ?_⟩
    rw [Bool.not_eq_true]
    rcases hv with hv | hv <;> simp [hv]
  refine ⟨hfalse, fun md ace maxw c4 c5 c6 c7 stype => ?_⟩
  unfold verifySuggestion checkPatchScope
  rw [hfalse]
  simp [VerificationResult.init, VerificationResult.add_error]

/-- Witness for C2: a diff touching line 10 with allowed range `[1, 5]`. -/
theorem C2_patch_scope_gating_witness :
    validatePatchScope ["--- a.md", "+++ b.md", "@@ -10,1 +10,1 @@", "-old", "+new"] 1 5
        = false ∧
    ∀ (md : String → String) (allow_code_edits : Bool) (maxw : Nat)
      (c4 c5 : VerificationResult → VerificationResult × Bool)
      (c6 c7 : VerificationResult → VerificationResult) (stype : String),
      verifySuggestion md allow_code_edits maxw c4 c5 c6 c7
          ["--- a.md", "+++ b.md", "@@ -10,1 +10,1 @@", "-old", "+new"] 1 5 stype =
        { can_auto_apply := false, warnings := [],
          errors := ["Patch affects lines outside the allowed range"], notes := [] } :=
  C2_patch_scope_gating
    ["--- a.md", "+++ b.md", "@@ -10,1 +10,1 @@", "-old", "+new"] 1 5
    [⟨"a.md", some "b.md", [⟨10, 1, 10, 1, [⟨"removed", "old"⟩, ⟨"added", "new"⟩]⟩]⟩]
    (by decide)
    (by decide)

/-! ### Version masking
(src/docsqa/backend/crawler/analyzers/rule_versions.py, `_is_safe_version_update`) -/

/-- Length of the leading digit run. -/
def digitsLen (cs : List Char) : Nat :=
  (cs.takeWhile Char.isDigit).length

/-- Characters consumed by the greedy `(?:\.[0-9]+)*` at the head of the
input (fuel-indexed; the input length is always enough fuel). -/
def dotGroupsLen : Nat → List Char → Nat
  | 0, _ => 0
  | fuel + 1, '.' :: cs =>
    match cs with
    | c :: _ =>
      if c.isDigit then
        let d := digitsLen cs
        1 + d + dotGroupsLen fuel (cs.drop d)
      else 0
    | [] => 0
  | _ + 1, _ => 0

/-- Length of the match of the version regex
`[0-9]+(?:\.[0-9]+)*(?:\.[0-9]+)*(?:[a-zA-Z][0-9]*)?` anchored at the head
of the input, or `0` if it does not match there.  All quantifiers are
greedy and every component can succeed with zero repetitions, so the
greedy left-to-right scan is the regex's unique match. -/
def matchVersionLen (cs : List Char) : Nat :=
  let d := digitsLen cs
  if d = 0 then 0
  else
    let rest1 := cs.drop d
    let g := dotGroupsLen rest1.length rest1
    let rest2 := rest1.drop g
    let suffix :=
      match rest2 with
      | c :: cs2 => if c.isAlpha then 1 + digitsLen cs2 else 0
      | [] => 0
    d + g + suffix

/-- The scan of `re.sub(version_pattern, 'VERSION', line)`: leftmost
non-overlapping matches replaced by `VERSION` (fuel-indexed). -/
def maskVersionsAux : Nat → List Char → List Char
  | 0, cs => cs
  | _, [] => []
  | fuel + 1, c :: cs =>
    let n := matchVersionLen (c :: cs)
    if n = 0 then c :: maskVersionsAux fuel cs
    else "VERSION".data ++ maskVersionsAux fuel ((c :: cs).drop n)

/-- `re.sub(version_pattern, 'VERSION', line)` as used by
`_is_safe_version_update` (rule_versions.py lines 165-176). -/
def maskVersions (line : String) : String :=
  String.mk (maskVersionsAux line.data.length line.data)

/-- `VersionAnalyzer._is_safe_version_update`: the lines are identical
after masking every version substring. -/
def isSafeVersionUpdate (original_line updated_line : String) : Bool :=
  maskVersions original_line == maskVersions updated_line

/-- The `can_auto_apply` computation of
`VersionAnalyzer._create_version_issue` (rule_versions.py lines 103-128):
`False` unless the suggested line differs from the original line, in which
case `_is_safe_version_update` decides. -/
def versionIssueCanAutoApply (line_content suggested_line : String) : Bool :=
  if suggested_line ≠ line_content then isSafeVersionUpdate line_content suggested_line
  else false

/-! ### Claim C3 -/

/-- C3: for an outdated-version issue carrying a proposal (the suggested
line differs from the original), `can_auto_apply` is true exactly when
the original and proposed lines are identical after every version-number
substring is replaced by the fixed token `VERSION`. -/
theorem C3_safe_version_update_iff_masked_equal
    (line_content suggested_line : String) (h : suggested_line ≠ line_content) :
    versionIssueCanAutoApply line_content suggested_line = true ↔
      maskVersions line_content = maskVersions suggested_line := by
  unfold versionIssueCanAutoApply isSafeVersionUpdate
  rw [if_pos h]
  exact beq_iff_eq

/-- Witness for C3 at the spec's scenario line. -/
theorem C3_safe_version_update_iff_masked_equal_witness :
    ("pip install wandb==0.20.0" ≠ "pip install wandb==0.10.0") ∧
    (versionIssueCanAutoApply "pip install wandb==0.10.0" "pip install wandb==0.20.0"
        = true ↔
      maskVersions "pip install wandb==0.10.0"
        = maskVersions "pip install wandb==0.20.0") :=
  ⟨by decide,
   C3_safe_version_update_iff_masked_equal
     "pip install wandb==0.10.0" "pip install wandb==0.20.0" (by decide)⟩

/-! ### Version drift (src/docsqa/backend/core/version_resolver.py) -/

/-- A parsed (PEP 440) package version, reduced to the attributes
`check_version_drift` consults: the first three release components and
prerelease status.  (`packaging.version.parse` results with the same
values of these attributes are interchangeable for that function.) -/
structure PVersion where
  major : Nat
  minor : Nat
  micro : Nat
  is_prerelease : Bool
  deriving DecidableEq, Repr

/-- The `packaging` strict order restricted to such versions:
lexicographic on the release components, with a prerelease sorting
before the corresponding release. -/
def PVersion.lt (a b : PVersion) : Prop :=
  a.major < b.major ∨
    (a.major = b.major ∧ (a.minor < b.minor ∨
      (a.minor = b.minor ∧ (a.micro < b.micro ∨
        (a.micro = b.micro ∧ a.is_prerelease = true ∧ b.is_prerelease = false)))))

instance (a b : PVersion) : Decidable (PVersion.lt a b) := by
  unfold PVersion.lt
  infer_instance

/-- The result dictionary of `check_version_drift`, without the
`found_version`/`latest_version` echo fields (they merely restate the
inputs) and the `error` field of the `invalid_version` branch (the
embedding works on already-parsed versions). -/
structure DriftInfo where
  is_outdated : Bool
  reason : String
  severity : Option String := none
  major_versions_behind : Option Int := none
  minor_versions_behind : Option Int := none
  deriving DecidableEq, Repr

/-- `VersionResolver.check_version_drift` (version_resolver.py lines
76-145) on parsed versions: prereleases are skipped first; then
newer/equal are current; then a major gap beyond `allow_majors_behind`
is `major_behind`/high; then (only for equal majors) a minor gap beyond
`allow_minors_behind` is `minor_behind` with severity medium when more
than 3 minors behind, else low; otherwise acceptable. -/
def checkVersionDrift (found latest : PVersion)
    (allow_majors_behind allow_minors_behind : Int) : DriftInfo :=
  if found.is_prerelease then
    { is_outdated := false, reason := "prerelease" }
  else if PVersion.lt latest found then
    { is_outdated := false, reason := "newer_than_latest" }
  else if found = latest then
    { is_outdated := false, reason := "current" }
  else if (latest.major : Int) - (found.major : Int) > allow_majors_behind then
    { is_outdated := true, reason := "major_behind", severity := some "high",
      major_versions_behind := some ((latest.major : Int) - (found.major : Int)) }
  else if (latest.major : Int) - (found.major : Int) = 0 then
    if (latest.minor : Int) - (found.minor : Int) > allow_minors_behind then
      { is_outdated := true, reason := "minor_behind",
        severity :=
          some (if (latest.minor : Int) - (found.minor : Int) > 3 then "medium" else "low"),
        minor_versions_behind := some ((latest.minor : Int) - (found.minor : Int)) }
    else
      { is_outdated := false, reason := "acceptable" }
  else
    { is_outdated := false, reason := "acceptable" }

/-! ### Claim C6 -/

/-- C6 counterexample: the claim asserts that any found version whose
major is behind by more than the allowance is reported outdated with
reason `major_behind`; but for a prerelease found version (e.g. `1.0.0a1`
against latest `3.0.0`) the code reports not outdated with reason
`prerelease`. -/
theorem C6_version_drift_boundaries_counterexample :
    ¬ ((checkVersionDrift ⟨1, 0, 0, true⟩ ⟨3, 0, 0, false⟩ 0 1).is_outdated = true ∧
       (checkVersionDrift ⟨1, 0, 0, true⟩ ⟨3, 0, 0, false⟩ 0 1).reason = "major_behind") := by
  decide

/-- C6 (amended): with `allow_majors_behind = 0` and
`allow_minors_behind = 1`, for a NON-PRERELEASE found version:
major equal and minor exactly 1 behind is not outdated; major equal and
minor exactly 2 behind is outdated with reason `minor_behind`; and a major
behind by more than the allowance is outdated with reason `major_behind`
regardless of the minor distance. -/
theorem drift_not_lt_of_minor_behind (found latest : PVersion)
    (hmaj : found.major = latest.major) (k : Nat) (hk : 0 < k)
    (hmin : found.minor + k = latest.minor) : ¬ PVersion.lt latest found := by
  intro h
  unfold PVersion.lt at h
  rcases h with h | ⟨e1, h | ⟨e2, h | ⟨e3, _, _⟩⟩⟩ <;> omega

theorem drift_not_lt_of_major_behind (found latest : PVersion)
    (hmaj : found.major < latest.major) : ¬ PVersion.lt latest found := by
  intro h
  unfold PVersion.lt at h
  rcases h with h | ⟨e1, h | ⟨e2, h | ⟨e3, _, _⟩⟩⟩ <;> omega

theorem drift_minor_behind (found latest : PVersion) (hpre : found.is_prerelease = false)
    (hmaj : found.major = latest.major) (k : Nat) (hk : 0 < k)
    (hmin : found.minor + k = latest.minor) :
    checkVersionDrift found latest 0 1 =
      (if (k : Int) > 1 then
        { is_outdated := true, reason := "minor_behind",
          severity := some (if (k : Int) > 3 then "medium" else "low"),
          minor_versions_behind := some (k : Int) }
      else { is_outdated := false, reason := "acceptable" }) := by
  have hlt := drift_not_lt_of_minor_behind found latest hmaj k hk hmin
  have hne : found ≠ latest := by
    intro h
    rw [h] at hmin
    omega
  have hdiff : (latest.minor : Int) - (found.minor : Int) = (k : Int) := by omega
  unfold checkVersionDrift
  rw [hpre, if_neg Bool.false_ne_true, if_neg hlt, if_neg hne,
    if_neg (by omega : ¬ ((latest.major : Int) - (found.major : Int) > 0)),
    if_pos (by omega : (latest.major : Int) - (found.major : Int) = 0), hdiff]

theorem drift_major_behind (found latest : PVersion) (hpre : found.is_prerelease = false)
    (hmaj : found.major < latest.major) :
    checkVersionDrift found latest 0 1 =
      { is_outdated := true, reason := "major_behind", severity := some "high",
        major_versions_behind := some ((latest.major : Int) - (found.major : Int)) } := by
  have hlt := drift_not_lt_of_major_behind found latest hmaj
  have hne : found ≠ latest := by
    intro h
    rw [h] at hmaj
    omega
  unfold checkVersionDrift
  rw [hpre, if_neg Bool.false_ne_true, if_neg hlt, if_neg hne,
    if_pos (by omega : (latest.major : Int) - (found.major : Int) > 0)]

/-- C6 (amended): with `allow_majors_behind = 0` and
`allow_minors_behind = 1`, for a NON-PRERELEASE found version:
major equal and minor exactly 1 behind is not outdated; major equal and
minor exactly 2 behind is outdated with reason `minor_behind`; and a major
behind by more than the allowance is outdated with reason `major_behind`
regardless of the minor distance. -/
theorem C6_version_drift_boundaries_amended
    (found latest : PVersion) (hpre : found.is_prerelease = false) :
    ((found.major = latest.major ∧ found.minor + 1 = latest.minor) →
      (checkVersionDrift found latest 0 1).is_outdated = false) ∧
    ((found.major = latest.major ∧ found.minor + 2 = latest.minor) →
      (checkVersionDrift found latest 0 1).is_outdated = true ∧
      (checkVersionDrift found latest 0 1).reason = "minor_behind") ∧
    (found.major < latest.major →
      (checkVersionDrift found latest 0 1).is_outdated = true ∧
      (checkVersionDrift found latest 0 1).reason = "major_behind") := by
  refine ⟨fun ⟨hmaj, hmin⟩ => ?_, fun ⟨hmaj, hmin⟩ => ?_, fun hmaj => ?_⟩
  · rw [drift_minor_behind found latest hpre hmaj 1 (by omega) hmin]
    norm_num
  · rw [drift_minor_behind found latest hpre hmaj 2 (by omega) hmin]
    norm_num
  · rw [drift_major_behind found latest hpre hmaj]
    exact ⟨rfl, rfl⟩

/-- Witness for C6 (amended): `0.18.0` against latest `0.20.0` is two
minors behind and reported `minor_behind`. -/
theorem C6_version_drift_boundaries_amended_witness :
    (checkVersionDrift ⟨0, 18, 0, false⟩ ⟨0, 20, 0, false⟩ 0 1).is_outdated = true ∧
    (checkVersionDrift ⟨0, 18, 0, false⟩ ⟨0, 20, 0, false⟩ 0 1).reason = "minor_behind" :=
  (C6_version_drift_boundaries_amended ⟨0, 18, 0, false⟩ ⟨0, 20, 0, false⟩ rfl).2.1
    ⟨rfl, rfl⟩

/-! ### Issue persistence (src/docsqa/backend/crawler/pipeline.py) -/

/-- `IssueSeverity` (src/docsqa/backend/core/schemas.py). -/
inductive IssueSeverity where
  | low
  | medium
  | high
  | critical
  deriving DecidableEq, Repr

/-- An issue record, restricted to the columns the combine/persist logic
reads or writes (identity key fields, the updated `description` and
`last_seen_run_id`, and representative untouched columns); the
`snippet`/`evidence`/`citations`/`provenance` payload columns are not
consulted by any embedded operation and are omitted. -/
structure Issue where
  file_id : Nat
  rule_code : String
  severity : IssueSeverity
  title : String
  description : String
  line_start : Nat
  line_end : Nat
  can_auto_apply : Bool
  first_seen_run_id : Nat
  last_seen_run_id : Nat
  deriving DecidableEq, Repr

/-- The identity key `(file_id, rule_code, line_start, title)` used both by
`_combine_issues` and by the existence query of `_store_issues`. -/
def issueKey (i : Issue) : Nat × String × Nat × String :=
  (i.file_id, i.rule_code, i.line_start, i.title)

/-- The dedup loop of `_combine_issues` (pipeline.py lines 299-309):
first occurrence of each identity key wins. -/
def dedupIssuesAux (seen : List (Nat × String × Nat × String)) :
    List Issue → List Issue
  | [] => []
  | i :: rest =>
    if issueKey i ∈ seen then dedupIssuesAux seen rest
    else i :: dedupIssuesAux (issueKey i :: seen) rest

/-- `AnalysisPipeline._combine_issues` (pipeline.py lines 292-309). -/
def combineIssues (rule_issues llm_issues : List Issue) : List Issue :=
  dedupIssuesAux [] (rule_issues ++ llm_issues)

/-- One iteration of the `_store_issues` loop (pipeline.py lines 316-336)
against a store represented as the ordered list of rows: the first row
with the candidate's identity key gets its `last_seen_run_id` and
`description` updated in place; if none exists the candidate is inserted
as a new row. -/
def storeOne : List Issue → Issue → List Issue
  | [], x => [x]
  | s :: ss, x =>
    if issueKey s = issueKey x then
      { s with last_seen_run_id := x.last_seen_run_id,
               description := x.description } :: ss
    else s :: storeOne ss x

/-- `AnalysisPipeline._store_issues` (pipeline.py lines 311-344) over a
candidate list. -/
def storeIssues (store : List Issue) (issues : List Issue) : List Issue :=
  issues.foldl storeOne store

/-- The multiset of identity keys in the store, in row order. -/
def storeKeys (store : List Issue) : List (Nat × String × Nat × String) :=
  store.map issueKey

theorem issueKey_update (s x : Issue) :
    issueKey { s with last_seen_run_id := x.last_seen_run_id,
                      description := x.description } = issueKey s := rfl

theorem storeKeys_storeOne_superset (store : List Issue) (x : Issue) (k) :
    k ∈ storeKeys store → k ∈ storeKeys (storeOne store x) := by
  induction store with
  | nil => intro h; simp [storeKeys] at h
  | cons s ss ih =>
    intro h
    rw [storeKeys, List.map_cons, List.mem_cons] at h
    unfold storeOne
    split_ifs with he
    · rcases h with h | h
      · simp [storeKeys, issueKey_update, h]
      · simp only [storeKeys, List.map_cons, List.mem_cons]
        exact Or.inr h
    · rcases h with h | h
      · simp [storeKeys, h]
      · simp only [storeKeys, List.map_cons, List.mem_cons]
        exact Or.inr (ih h)

theorem storeKeys_storeOne_mem (store : List Issue) (x : Issue) :
    issueKey x ∈ storeKeys (storeOne store x) := by
  induction store with
  | nil => simp [storeOne, storeKeys]
  | cons s ss ih =>
    unfold storeOne
    split_ifs with he
    · simp [storeKeys, issueKey_update, he]
    · simp only [storeKeys, List.map_cons, List.mem_cons]
      exact Or.inr ih

theorem storeOne_length_of_mem (store : List Issue) (x : Issue)
    (h : issueKey x ∈ storeKeys store) :
    (storeOne store x).length = store.length := by
  induction store with
  | nil => simp [storeKeys] at h
  | cons s ss ih =>
    rw [storeKeys, List.map_cons, List.mem_cons] at h
    unfold storeOne
    split_ifs with he
    · simp
    · rcases h with h | h
      · exact absurd h.symm he
      · simp [ih h]

theorem storeKeys_storeIssues_superset (issues : List Issue) (store : List Issue) (k)
    (h : k ∈ storeKeys store) : k ∈ storeKeys (storeIssues store issues) := by
  induction issues generalizing store with
  | nil => exact h
  | cons x xs ih =>
    exact ih (storeOne store x) (storeKeys_storeOne_superset store x k h)

theorem storeKeys_storeIssues_mem (issues : List Issue) (store : List Issue)
    (x : Issue) (hx : x ∈ issues) :
    issueKey x ∈ storeKeys (storeIssues store issues) := by
  induction issues generalizing store with
  | nil => simp at hx
  | cons y ys ih =>
    rcases List.mem_cons.mp hx with h | h
    · subst h
      exact storeKeys_storeIssues_superset ys (storeOne store x) _
        (storeKeys_storeOne_mem store x)
    · exact ih (storeOne store y) h

theorem storeIssues_length_of_all_mem (issues : List Issue) (store : List Issue)
    (h : ∀ x ∈ issues, issueKey x ∈ storeKeys store) :
    (storeIssues store issues).length = store.length := by
  induction issues generalizing store with
  | nil => rfl
  | cons x xs ih =>
    have hx := h x (List.mem_cons_self x xs)
    calc (storeIssues (storeOne store x) xs).length
        = (storeOne store x).length := by
          refine ih (storeOne store x) fun y hy => ?_
          exact storeKeys_storeOne_superset store x _ (h y (List.mem_cons_of_mem x hy))
      _ = store.length := storeOne_length_of_mem store x hx

/-! ### Claim C5 -/

/-- C5: storing a candidate whose identity key already exists updates that
row's `last_seen_run_id` and `description` in place (no new row, all other
rows untouched); a candidate with a fresh key appends exactly one new row;
consequently running the store step twice with the same candidate list —
in particular the deduplicated combination of rule and LLM issues of an
unchanged input — leaves the row count of the second run equal to that of
the first. -/
theorem C5_idempotent_persistence (x : Issue) :
    (∀ (pre post : List Issue) (r : Issue),
      issueKey r = issueKey x →
      (∀ p ∈ pre, issueKey p ≠ issueKey x) →
      storeOne (pre ++ r :: post) x =
        pre ++ { r with last_seen_run_id := x.last_seen_run_id,
                        description := x.description } :: post) ∧
    (∀ store : List Issue,
      (∀ p ∈ store, issueKey p ≠ issueKey x) →
      storeOne store x = store ++ [x]) ∧
    (∀ (store : List Issue) (rule_issues llm_issues : List Issue),
      (storeIssues (storeIssues store (combineIssues rule_issues llm_issues))
          (combineIssues rule_issues llm_issues)).length =
        (storeIssues store (combineIssues rule_issues llm_issues)).length) := by
  refine ⟨?_, ?_, ?_⟩
  · intro pre post r hr hpre
    induction pre with
    | nil => simp [storeOne, hr]
    | cons p ps ih =>
      have hp : issueKey p ≠ issueKey x := hpre p (List.mem_cons_self p ps)
      simp only [List.cons_append, storeOne, if_neg hp, List.append_eq]
      rw [ih fun q hq => hpre q (List.mem_cons_of_mem p hq)]
  · intro store hstore
    induction store with
    | nil => rfl
    | cons s ss ih =>
      have hs : issueKey s ≠ issueKey x := hstore s (List.mem_cons_self s ss)
      simp only [storeOne, if_neg hs, List.cons_append]
      rw [ih fun q hq => hstore q (List.mem_cons_of_mem s hq)]
  · intro store rule_issues llm_issues
    exact storeIssues_length_of_all_mem _ _
      (fun y hy => storeKeys_storeIssues_mem _ store y hy)

/-- Witness for C5 at a two-row store and a concrete candidate. -/
theorem C5_idempotent_persistence_witness :
    (storeOne
        [⟨1, "LINK_404", .high, "t1", "d1", 3, 3, false, 1, 1⟩,
         ⟨1, "SDKVER_MINOR", .low, "t2", "d2", 7, 7, true, 1, 1⟩]
        ⟨1, "SDKVER_MINOR", .low, "t2", "new description", 7, 7, true, 2, 2⟩ =
      [⟨1, "LINK_404", .high, "t1", "d1", 3, 3, false, 1, 1⟩,
       ⟨1, "SDKVER_MINOR", .low, "t2", "new description", 7, 7, true, 1, 2⟩]) ∧
    (storeOne [⟨1, "LINK_404", .high, "t1", "d1", 3, 3, false, 1, 1⟩]
        ⟨2, "STYLE_H1", .medium, "t3", "d3", 1, 1, false, 2, 2⟩ =
      [⟨1, "LINK_404", .high, "t1", "d1", 3, 3, false, 1, 1⟩,
       ⟨2, "STYLE_H1", .medium, "t3", "d3", 1, 1, false, 2, 2⟩]) ∧
    (storeIssues
        (storeIssues []
          (combineIssues [⟨1, "LINK_404", .high, "t1", "d1", 3, 3, false, 1, 1⟩]
            [⟨1, "LINK_404", .high, "t1", "d1", 3, 3, false, 1, 1⟩]))
        (combineIssues [⟨1, "LINK_404", .high, "t1", "d1", 3, 3, false, 1, 1⟩]
          [⟨1, "LINK_404", .high, "t1", "d1", 3, 3, false, 1, 1⟩])).length =
      (storeIssues []
        (combineIssues [⟨1, "LINK_404", .high, "t1", "d1", 3, 3, false, 1, 1⟩]
          [⟨1, "LINK_404", .high, "t1", "d1", 3, 3, false, 1, 1⟩])).length := by
  refine ⟨?_, ?_, ?_⟩
  · exact (C5_idempotent_persistence
      ⟨1, "SDKVER_MINOR", .low, "t2", "new description", 7, 7, true, 2, 2⟩).1
      [⟨1, "LINK_404", .high, "t1", "d1", 3, 3, false, 1, 1⟩] []
      ⟨1, "SDKVER_MINOR", .low, "t2", "d2", 7, 7, true, 1, 1⟩
      (by decide) (by decide)
  · exact (C5_idempotent_persistence
      ⟨2, "STYLE_H1", .medium, "t3", "d3", 1, 1, false, 2, 2⟩).2.1
      [⟨1, "LINK_404", .high, "t1", "d1", 3, 3, false, 1, 1⟩] (by decide)
  · exact (C5_idempotent_persistence
      ⟨1, "LINK_404", .high, "t1", "d1", 3, 3, false, 1, 1⟩).2.2 []
      [⟨1, "LINK_404", .high, "t1", "d1", 3, 3, false, 1, 1⟩]
      [⟨1, "LINK_404", .high, "t1", "d1", 3, 3, false, 1, 1⟩]

/-! ### Link analyzer (src/docsqa/backend/crawler/analyzers/rule_links.py
and the `LinkResult` dataclass of src/docsqa/backend/core/linkcheck.py) -/

/-- `LinkResult` (linkcheck.py lines 12-19). -/
structure LinkResult where
  url : String
  status_code : Option Nat
  is_valid : Bool
  error_message : Option String
  redirect_url : Option String := none
  response_time_ms : Option Nat := none
  deriving DecidableEq, Repr

/-- One link occurrence dictionary as built by
`LinkAnalyzer._extract_all_links` (rule_links.py lines 75-111). -/
structure LinkOccurrence where
  url : String
  text : String
  line_start : Nat
  line_end : Nat
  type : String
  context : String
  deriving DecidableEq, Repr

/-- Python truthiness of an `Optional[str]` (`None` and `""` are falsy). -/
def strTruthy : Option String → Bool
  | none => false
  | some s => s ≠ ""

/-- Python `str(...)` of an `Optional[int]` as interpolated in f-strings. -/
def pyStrOptNat : Option Nat → String
  | none => "None"
  | some n => toString n

/-- Python f-string interpolation of an `Optional[str]`. -/
def pyStrOptStr : Option String → String
  | none => "None"
  | some s => s

/-- `LinkAnalyzer._determine_severity` (rule_links.py lines 178-191):
no (truthy) status code or 404 is high, 403/401 and 5xx are medium,
everything else low. -/
def determineSeverity (result : LinkResult) : IssueSeverity :=
  if ¬ intTruthy result.status_code then .high
  else if result.status_code = some 404 then .high
  else if result.status_code = some 403 ∨ result.status_code = some 401 then .medium
  else if result.status_code.getD 0 ≥ 500 then .medium
  else .low

/-- `LinkAnalyzer._determine_rule_code` (rule_links.py lines 193-208). -/
def determineRuleCode (result : LinkResult) : String :=
  if ¬ intTruthy result.status_code then
    if hasSubstr (pyLower (result.error_message.getD "")) "timeout" then "LINK_TIMEOUT"
    else "LINK_UNREACHABLE"
  else if result.status_code = some 404 then "LINK_404"
  else if result.status_code = some 403 ∨ result.status_code = some 401 then "LINK_FORBIDDEN"
  else if result.status_code.getD 0 ≥ 500 then "LINK_SERVER_ERROR"
  else "LINK_ERROR"

/-- The description text assembled by `_create_link_issue`
(rule_links.py lines 131-144). -/
def linkIssueDescription (link : LinkOccurrence) (result : LinkResult) : String :=
  let base :=
    if intTruthy result.status_code then
      "Link returns HTTP " ++ pyStrOptNat result.status_code ++ ": " ++
        pyStrOptStr result.error_message
    else
      "Link is unreachable: " ++ pyStrOptStr result.error_message
  let base :=
    if strTruthy result.redirect_url then
      base ++ "\nRedirected to: " ++ pyStrOptStr result.redirect_url
    else base
  if link.type = "markdown_link" ∧ link.text ≠ link.url then
    base ++ "\nLink text: '" ++ link.text ++ "'"
  else base

/-- `LinkAnalyzer._create_link_issue` (rule_links.py lines 122-176),
restricted to the issue columns of the `Issue` embedding;
`can_auto_apply` is the literal `False` of line 169. -/
def createLinkIssue (link : LinkOccurrence) (result : LinkResult)
    (file_id run_id : Nat) : Issue :=
  { file_id := file_id,
    rule_code := determineRuleCode result,
    severity := determineSeverity result,
    title := "Broken link: " ++ link.url,
    description := linkIssueDescription link result,
    line_start := link.line_start,
    line_end := link.line_end,
    can_auto_apply := false,
    first_seen_run_id := run_id,
    last_seen_run_id := run_id }

/-- The issue-creation loop of `LinkAnalyzer.analyze_document`
(rule_links.py lines 60-68): one issue per link occurrence whose check
result exists and is invalid. -/
def linkIssuesFor (all_links : List LinkOccurrence)
    (results : String → Option LinkResult) (file_id run_id : Nat) : List Issue :=
  all_links.filterMap fun link =>
    match results link.url with
    | some result =>
      if result.is_valid = false then some (createLinkIssue link result file_id run_id)
      else none
    | none => none

theorem determineSeverity_eq (r : LinkResult) (s : Nat) (hs : r.status_code = some s) :
    determineSeverity r =
      if s = 0 then .high
      else if s = 404 then .high
      else if s = 403 ∨ s = 401 then .medium
      else if s ≥ 500 then .medium
      else .low := by
  unfold determineSeverity
  rw [hs]
  simp only [intTruthy, Option.getD, Option.some.injEq]
  split_ifs <;> simp_all

theorem determineRuleCode_eq (r : LinkResult) (s : Nat) (hs : r.status_code = some s)
    (h0 : s ≠ 0) :
    determineRuleCode r =
      if s = 404 then "LINK_404"
      else if s = 403 ∨ s = 401 then "LINK_FORBIDDEN"
      else if s ≥ 500 then "LINK_SERVER_ERROR"
      else "LINK_ERROR" := by
  unfold determineRuleCode
  rw [hs]
  simp only [intTruthy, Option.getD, Option.some.injEq]
  split_ifs <;> simp_all

/-! ### Claim C9 -/

/-- C9: an invalid result with no status code and an error message not
mentioning a timeout yields rule code `LINK_UNREACHABLE` with severity
high; the analyzer emits exactly one issue per link occurrence whose
result is invalid; severity is high for no-status and 404, medium for
401/403 and 5xx, low otherwise; rule codes mirror the failure class; and
`can_auto_apply` is always false. -/
theorem C9_link_failure_classification :
    (∀ (link : LinkOccurrence) (r : LinkResult) (fid rid : Nat),
      r.is_valid = false → r.status_code = none →
      hasSubstr (pyLower (r.error_message.getD "")) "timeout" = false →
      (createLinkIssue link r fid rid).rule_code = "LINK_UNREACHABLE" ∧
      (createLinkIssue link r fid rid).severity = .high ∧
      (createLinkIssue link r fid rid).can_auto_apply = false) ∧
    (∀ (all_links : List LinkOccurrence) (results : String → Option LinkResult)
        (fid rid : Nat),
      (linkIssuesFor all_links results fid rid).length =
        (all_links.filter fun l =>
          ((results l.url).map (fun r => !r.is_valid)).getD false).length) ∧
    (∀ r : LinkResult,
      (r.status_code = none → determineSeverity r = .high) ∧
      (r.status_code = some 404 → determineSeverity r = .high) ∧
      (r.status_code = some 401 ∨ r.status_code = some 403 →
        determineSeverity r = .medium) ∧
      (∀ s, r.status_code = some s → 500 ≤ s → determineSeverity r = .medium) ∧
      (∀ s, r.status_code = some s → 0 < s → s ≠ 404 → s ≠ 401 → s ≠ 403 →
        s < 500 → determineSeverity r = .low)) ∧
    (∀ r : LinkResult,
      (r.status_code = none →
        hasSubstr (pyLower (r.error_message.getD "")) "timeout" = true →
        determineRuleCode r = "LINK_TIMEOUT") ∧
      (r.status_code = some 404 → determineRuleCode r = "LINK_404") ∧
      (r.status_code = some 401 ∨ r.status_code = some 403 →
        determineRuleCode r = "LINK_FORBIDDEN") ∧
      (∀ s, r.status_code = some s → 500 ≤ s → determineRuleCode r = "LINK_SERVER_ERROR")) ∧
    (∀ (link : LinkOccurrence) (r : LinkResult) (fid rid : Nat),
      (createLinkIssue link r fid rid).can_auto_apply = false) := by
  refine ⟨?_, ?_, ?_, ?_, ?_⟩
  · intro link r fid rid hv hs hmsg
    refine ⟨?_, ?_, rfl⟩
    · show determineRuleCode r = _
      unfold determineRuleCode
      rw [hs]
      simp [intTruthy, hmsg]
    · show determineSeverity r = _
      unfold determineSeverity
      rw [hs]
      simp [intTruthy]
  · intro all_links results fid rid
    induction all_links with
    | nil => rfl
    | cons l ls ih =>
      unfold linkIssuesFor at ih ⊢
      rw [List.filterMap_cons, List.filter_cons]
      cases hres : results l.url with
      | none => simpa [hres] using ih
      | some r =>
        cases hval : r.is_valid <;> simp_all
  · intro r
    refine ⟨fun h => ?_, fun h => ?_, fun h => ?_, fun s hs h5 => ?_,
      fun s hs h0 h404 h401 h403 h5 => ?_⟩
    · unfold determineSeverity
      rw [h]
      simp [intTruthy]
    · rw [determineSeverity_eq r 404 h]
      norm_num
    · rcases h with h | h
      · rw [determineSeverity_eq r 401 h]
        norm_num
      · rw [determineSeverity_eq r 403 h]
        norm_num
    · rw [determineSeverity_eq r s hs]
      split_ifs <;> first | rfl | omega
    · rw [determineSeverity_eq r s hs]
      split_ifs <;> first | rfl | omega
  · intro r
    refine ⟨fun h ht => ?_, fun h => ?_, fun h => ?_, fun s hs h5 => ?_⟩
    · unfold determineRuleCode
      rw [h]
      simp [intTruthy, ht]
    · rw [determineRuleCode_eq r 404 h (by norm_num)]
      norm_num
    · rcases h with h | h
      · rw [determineRuleCode_eq r 401 h (by norm_num)]
        norm_num
      · rw [determineRuleCode_eq r 403 h (by norm_num)]
        norm_num
    · rw [determineRuleCode_eq r s hs (by omega)]
      split_ifs <;> first | rfl | omega
  · intro link r fid rid
    rfl

/-- Witness for C9 at the spec's stub: an invalid result with no status
code and error message "Connection error". -/
theorem C9_link_failure_classification_witness :
    (createLinkIssue
        ⟨"http://nonexistent.invalid/x", "broken", 1, 1, "markdown_link",
          "Check [broken](http://nonexistent.invalid/x)"⟩
        ⟨"http://nonexistent.invalid/x", none, false, some "Connection error", none, none⟩
        1 1).rule_code = "LINK_UNREACHABLE" ∧
    (createLinkIssue
        ⟨"http://nonexistent.invalid/x", "broken", 1, 1, "markdown_link",
          "Check [broken](http://nonexistent.invalid/x)"⟩
        ⟨"http://nonexistent.invalid/x", none, false, some "Connection error", none, none⟩
        1 1).severity = .high ∧
    (createLinkIssue
        ⟨"http://nonexistent.invalid/x", "broken", 1, 1, "markdown_link",
          "Check [broken](http://nonexistent.invalid/x)"⟩
        ⟨"http://nonexistent.invalid/x", none, false, some "Connection error", none, none⟩
        1 1).can_auto_apply = false :=
  C9_link_failure_classification.1
    ⟨"http://nonexistent.invalid/x", "broken", 1, 1, "markdown_link",
      "Check [broken](http://nonexistent.invalid/x)"⟩
    ⟨"http://nonexistent.invalid/x", none, false, some "Connection error", none, none⟩
    1 1 rfl rfl (by decide)

/-! ### MDX structural parser (src/docsqa/backend/core/mdx_parse.py) -/

/-- A heading element (`MDXElement` with `type="heading"`). -/
structure Heading where
  text : String
  line_start : Nat
  level : Nat
  deriving DecidableEq, Repr

/-- A link element. -/
structure LinkEl where
  text : String
  url : String
  line_start : Nat
  deriving DecidableEq, Repr

/-- An image element. -/
structure ImageEl where
  alt : String
  url : String
  line_start : Nat
  deriving DecidableEq, Repr

/-- A fenced code block element. -/
structure CodeBlockEl where
  content : String
  line_start : Nat
  line_end : Nat
  language : String
  deriving DecidableEq, Repr

/-- An inline code element. -/
structure InlineCodeEl where
  content : String
  line_start : Nat
  deriving DecidableEq, Repr

/-- A paragraph element (the only kind `_parse_paragraphs` appends to
`self.elements`). -/
structure ParagraphEl where
  content : String
  line_start : Nat
  line_end : Nat
  deriving DecidableEq, Repr

/-- The regex `^(#+)\s+(.*)` of the heading scan (mdx_parse.py line 95),
applied to the stripped line: one or more `#`, at least one whitespace
character, then the rest of the line. -/
def matchHeading (line : String) : Option (Nat × String) :=
  let st := (pyStrip line).data
  let hashes := st.takeWhile (· = '#')
  if hashes = [] then none
  else
    let rest := st.drop hashes.length
    let sp := rest.takeWhile isPySpace
    if sp = [] then none
    else some (hashes.length, String.mk (rest.drop sp.length))

/-- The regex `^```(\w+)?` language capture of a fence opener
(mdx_parse.py lines 76-77), with a missing group giving `""`. -/
def fenceLanguage (line : String) : String :=
  String.mk (((pyStrip line).data.drop 3).takeWhile isWordChar)

/-- Match of `\[([^\]]*)\]\(([^)]+)\)` anchored at the head of the input,
returning link text, url and the remaining input.  The negated character
classes make the regex deterministic. -/
def tryMatchLink : List Char → Option (String × String × List Char)
  | '[' :: cs =>
    let text := cs.takeWhile (· ≠ ']')
    (match cs.drop text.length with
      | ']' :: '(' :: cs2 =>
        let url := cs2.takeWhile (· ≠ ')')
        if url = [] then none
        else
          match cs2.drop url.length with
          | ')' :: cs3 => some (String.mk text, String.mk url, cs3)
          | _ => none
      | _ => none)
  | _ => none

/-- `re.finditer(r'\[([^\]]*)\]\(([^)]+)\)', line)`: the leftmost
non-overlapping matches, scanning resumes after each match (fuel-indexed;
the line length suffices). -/
def findLinksAux : Nat → List Char → List (String × String)
  | 0, _ => []
  | _, [] => []
  | fuel + 1, c :: cs =>
    match tryMatchLink (c :: cs) with
    | some (t, u, rest) => (t, u) :: findLinksAux fuel rest
    | none => findLinksAux fuel cs

/-- All `[text](url)` matches in a line. -/
def findLinks (line : String) : List (String × String) :=
  findLinksAux line.data.length line.data

/-- All `![alt](url)` matches in a line: a match of
`!\[([^\]]*)\]\(([^)]+)\)` is a `!` followed by a link-shaped match
(fuel-indexed). -/
def findImagesAux : Nat → List Char → List (String × String)
  | 0, _ => []
  | _, [] => []
  | fuel + 1, c :: cs =>
    match (if c = '!' then tryMatchLink cs else none) with
    | some (t, u, rest) => (t, u) :: findImagesAux fuel rest
    | none => findImagesAux fuel cs

/-- All `![alt](url)` matches in a line. -/
def findImages (line : String) : List (String × String) :=
  findImagesAux line.data.length line.data

/-- Match of `` `([^`]+)` `` anchored at the head. -/
def tryMatchInlineCode : List Char → Option (String × List Char)
  | '`' :: cs =>
    let code := cs.takeWhile (· ≠ '`')
    if code = [] then none
    else
      match cs.drop code.length with
      | '`' :: cs2 => some (String.mk code, cs2)
      | _ => none
  | _ => none

/-- All `` `code` `` matches in a line. -/
def findInlineCodeAux : Nat → List Char → List String
  | 0, _ => []
  | _, [] => []
  | fuel + 1, c :: cs =>
    match tryMatchInlineCode (c :: cs) with
    | some (t, rest) => t :: findInlineCodeAux fuel rest
    | none => findInlineCodeAux fuel cs

/-- All inline code matches in a line. -/
def findInlineCode (line : String) : List String :=
  findInlineCodeAux line.data.length line.data

/-- State of the `_parse_body` line loop (mdx_parse.py lines 54-147). -/
structure ParseBodyState where
  in_code_block : Bool
  code_block_start : Nat
  code_block_content : List String
  code_block_language : String
  headings : List Heading
  links : List LinkEl
  images : List ImageEl
  code_blocks : List CodeBlockEl
  inline_code : List InlineCodeEl
  deriving DecidableEq, Repr

/-- One iteration of the `_parse_body` loop on `(line_num, line)`. -/
def parseBodyStep (st : ParseBodyState) (p : Nat × String) : ParseBodyState :=
  let line_num := p.1
  let line := p.2
  if pyStartsWith (pyStrip line) "```" then
    if ¬ st.in_code_block then
      { st with in_code_block := true, code_block_start := line_num,
                code_block_content := [], code_block_language := fenceLanguage line }
    else
      { st with in_code_block := false,
                code_blocks := st.code_blocks ++
                  [⟨joinNl st.code_block_content, st.code_block_start, line_num,
                    st.code_block_language⟩] }
  else if st.in_code_block then
    { st with code_block_content := st.code_block_content ++ [line] }
  else
    match matchHeading line with
    | some lt => { st with headings := st.headings ++ [⟨lt.2, line_num, lt.1⟩] }
    | none =>
      { st with
        links := st.links ++ ((findLinks line).map fun tu => ⟨tu.1, tu.2, line_num⟩),
        images := st.images ++ ((findImages line).map fun tu => ⟨tu.1, tu.2, line_num⟩),
        inline_code := st.inline_code ++ ((findInlineCode line).map fun t => ⟨t, line_num⟩) }

/-- The element-extraction pass of `_parse_body` over the body's lines
(1-indexed as `enumerate(lines, 1)`). -/
def parseBodyElements (body_content : String) : ParseBodyState :=
  ((splitNl body_content).enum.map fun il => (il.1 + 1, il.2)).foldl parseBodyStep
    { in_code_block := false, code_block_start := 0, code_block_content := [],
      code_block_language := "", headings := [], links := [], images := [],
      code_blocks := [], inline_code := [] }

/-- State of `_parse_paragraphs` (mdx_parse.py lines 149-179). -/
structure ParaState where
  current : List String
  start : Nat
  paras : List ParagraphEl
  deriving DecidableEq, Repr

/-- One iteration of the `_parse_paragraphs` loop on `(i, line)`. -/
def paraStep (st : ParaState) (p : Nat × String) : ParaState :=
  let i := p.1
  let line := p.2
  if pyStrip line = "" then
    if st.current ≠ [] then
      { current := [], start := i + 1,
        paras := st.paras ++ [⟨joinNl st.current, st.start, i - 1⟩] }
    else
      { st with start := i + 1 }
  else if ¬ pyStartsWith (pyStrip line) "#" ∧ ¬ pyStartsWith (pyStrip line) "```" then
    { st with current := st.current ++ [line] }
  else
    st

/-- `_parse_paragraphs` over the body lines. -/
def parseParagraphs (lines : List String) : List ParagraphEl :=
  let final := ((lines.enum.map fun il => (il.1 + 1, il.2)).foldl paraStep
    { current := [], start := 1, paras := [] })
  if final.current ≠ [] then
    final.paras ++ [⟨joinNl final.current, final.start, lines.length⟩]
  else
    final.paras

/-- The frontmatter attributes consulted by the embedded code
(`get_title` reads the `title` key). -/
structure FMData where
  title : Option String := none
  deriving DecidableEq, Repr

/-- The parsed document (`MDXDocument.__init__` plus `_parse`):
`frontmatter_data` reduced to `FMData`, `elements` holding the
paragraphs appended by `_parse_paragraphs`. -/
structure MDXDocument where
  filepath : String
  raw_content : String
  frontmatter_data : FMData
  body_content : String
  headings : List Heading
  links : List LinkEl
  images : List ImageEl
  code_blocks : List CodeBlockEl
  inline_code : List InlineCodeEl
  elements : List ParagraphEl
  deriving DecidableEq, Repr

/-- Build the document record from a frontmatter result and a body
(`_parse_body` plus `_parse_paragraphs` on the body). -/
def mkMDXDocument (filepath raw : String) (meta : FMData) (body : String) :
    MDXDocument :=
  let st := parseBodyElements body
  { filepath := filepath, raw_content := raw, frontmatter_data := meta,
    body_content := body, headings := st.headings, links := st.links,
    images := st.images, code_blocks := st.code_blocks,
    inline_code := st.inline_code, elements := parseParagraphs (splitNl body) }

/-- `MDXDocument._parse` (mdx_parse.py lines 37-52): `fm` abstracts
`frontmatter.loads` (`none` models a raised exception, e.g. malformed
YAML).  On success the metadata and stripped body are used; on failure
the entire raw content becomes the body and `_parse_body` runs on it. -/
def mdxParse (fm : String → Option (FMData × String)) (filepath content : String) :
    MDXDocument :=
  match fm content with
  | some ms => mkMDXDocument filepath content ms.1 ms.2
  | none => mkMDXDocument filepath content {} content

/-! ### Chunker (src/docsqa/backend/core/chunker.py); the tiktoken
tokenizer is the abstract parameter `tc : String → Nat`
(`DocumentChunker.count_tokens`). -/

/-- `MDXDocument.get_title` (mdx_parse.py lines 181-192): frontmatter
`title` key first, else the first level-1 heading. -/
def MDXDocument.get_title (doc : MDXDocument) : Option String :=
  match doc.frontmatter_data.title with
  | some t => some t
  | none => (doc.headings.find? fun h => h.level == 1).map Heading.text

/-- `MDXDocument.to_rendered_text` (mdx_parse.py lines 270-294): fence
lines toggle the state; with `exclude_code_blocks` the fence lines become
`[CODE BLOCK: lang]` / `[CODE BLOCK END]` markers (language defaulting to
`unknown`) and the fenced body lines are dropped. -/
def toRenderedTextStep (exclude_code_blocks : Bool) (st : Bool × List String)
    (line : String) : Bool × List String :=
  if pyStartsWith (pyStrip line) "```" then
    let in_code_block := !st.1
    if exclude_code_blocks then
      if ¬ in_code_block then (in_code_block, st.2 ++ ["[CODE BLOCK END]"])
      else
        (in_code_block, st.2 ++
          ["[CODE BLOCK: " ++
            (if fenceLanguage line = "" then "unknown" else fenceLanguage line) ++ "]"])
    else (in_code_block, st.2 ++ [line])
  else if st.1 ∧ exclude_code_blocks then st
  else (st.1, st.2 ++ [line])

/-- `MDXDocument.to_rendered_text`. -/
def toRenderedText (doc : MDXDocument) (exclude_code_blocks : Bool) : String :=
  joinNl ((splitNl doc.body_content).foldl (toRenderedTextStep exclude_code_blocks)
    (false, [])).2

/-- Chunk metadata: the three dictionary shapes built by the chunker
(`is_complete_document`, `is_complete_section`, and
`is_partial_section`/`split_reason='token_limit'`). -/
inductive ChunkMeta where
  | completeDocument (total_headings total_links total_code_blocks : Nat)
  | completeSection (section_heading : String) (heading_level : Nat)
  | partialSection
  deriving DecidableEq, Repr

/-- `DocumentChunk` (chunker.py lines 11-21). -/
structure DocumentChunk where
  chunk_id : String
  file_path : String
  content : String
  rendered_text : String
  start_line : Nat
  end_line : Nat
  heading_context : List String
  token_count : Nat
  metadata : ChunkMeta
  deriving DecidableEq, Repr

/-- `DocumentChunker._render_section_for_llm` (chunker.py lines 240-266):
strip each line except fence openers (the indented-code test
`line.strip().startswith('    ')` is vacuous after stripping, as in the
source), then collapse runs of blank lines to one. -/
def renderSectionForLLM (content : String) : String :=
  let cleaned := (splitNl content).map fun line =>
    if pyStartsWith (pyStrip line) "```" ∨ pyStartsWith (pyStrip line) "    " then line
    else pyStrip line
  joinNl (cleaned.foldl
    (fun st line =>
      if line = "" then
        if ¬ st.1 then (true, st.2 ++ [line]) else (true, st.2)
      else (false, st.2 ++ [line]))
    ((false : Bool), ([] : List String))).2

/-- `DocumentChunker._get_heading_context_for_line` (chunker.py lines
210-228): walk the headings up to the first one past `line_num` (the
`break`), maintaining the outline stack. -/
def headingContextForLine (doc : MDXDocument) (line_num : Nat) : List String :=
  let relevant := doc.headings.takeWhile fun h => decide (h.line_start ≤ line_num)
  let stack := relevant.foldl
    (fun (stack : List (Nat × String)) h =>
      (stack.reverse.dropWhile fun e => decide (e.1 ≥ h.level)).reverse ++
        [(h.level, h.text)])
    []
  stack.map Prod.snd

/-- `DocumentChunker._get_document_heading_context` (chunker.py lines
230-238), with Python truthiness on the optional title. -/
def documentHeadingContext (doc : MDXDocument) : List String :=
  if strTruthy doc.get_title then [doc.get_title.getD ""]
  else
    match doc.headings with
    | h :: _ => [h.text]
    | [] => ["Document: " ++ doc.filepath]

/-- Python `lst[k:]` for an `int` index (negative indices count from the
end, clamped at the start). -/
def pySliceFrom (l : List String) (k : Int) : List String :=
  if k ≥ 0 then l.drop k.toNat
  else l.drop (l.length - k.natAbs)

/-- State of the `_split_large_section` loop (chunker.py lines 145-208). -/
structure SplitState where
  chunks : List DocumentChunk
  current_chunk_lines : List String
  current_chunk_start : Nat
  current_tokens : Nat
  deriving DecidableEq, Repr

/-- The chunk emitted inside the `_split_large_section` loop when the
budget would be exceeded (chunker.py lines 158-176). -/
def splitEmitChunk (doc : MDXDocument) (chunk_idx : Nat) (st : SplitState) :
    DocumentChunk :=
  { chunk_id := doc.filepath ++ "_chunk_" ++ toString (chunk_idx + st.chunks.length),
    file_path := doc.filepath,
    content := joinNl st.current_chunk_lines,
    rendered_text := renderSectionForLLM (joinNl st.current_chunk_lines),
    start_line := st.current_chunk_start,
    end_line := st.current_chunk_start + st.current_chunk_lines.length - 1,
    heading_context := headingContextForLine doc st.current_chunk_start,
    token_count := st.current_tokens,
    metadata := .partialSection }

/-- The overlap suffix `current_chunk_lines[-self.overlap_size // 50:]`
(chunker.py line 179; Python floor division on the negated size). -/
def overlapLines (overlap_size : Nat) (st : SplitState) : List String :=
  pySliceFrom st.current_chunk_lines (Int.fdiv (-(overlap_size : Int)) 50)

/-- One iteration of the `_split_large_section` loop: when adding the line
would exceed the budget and the buffer is nonempty, the buffer is emitted
as a chunk and a new buffer is seeded with the overlap suffix plus the
line (with `current_tokens` recomputed as the sum of per-line counts and
`current_chunk_start` recomputed as on line 181); otherwise the line is
appended. -/
def splitStep (tc : String → Nat) (chunk_size overlap_size : Nat)
    (doc : MDXDocument) (chunk_idx : Nat) (st : SplitState) (line : String) :
    SplitState :=
  if st.current_tokens + tc line > chunk_size ∧ st.current_chunk_lines ≠ [] then
    { chunks := st.chunks ++ [splitEmitChunk doc chunk_idx st],
      current_chunk_lines := overlapLines overlap_size st ++ [line],
      current_chunk_start :=
        st.current_chunk_start + (overlapLines overlap_size st ++ [line]).length -
          (overlapLines overlap_size st).length - 1,
      current_tokens := ((overlapLines overlap_size st ++ [line]).map tc).sum }
  else
    { st with current_chunk_lines := st.current_chunk_lines ++ [line],
              current_tokens := st.current_tokens + tc line }

/-- The final-buffer chunk of `_split_large_section` (chunker.py lines
188-206), carrying the section's `end_line`. -/
def splitFinalChunk (doc : MDXDocument) (chunk_idx end_line : Nat)
    (st : SplitState) : DocumentChunk :=
  { chunk_id := doc.filepath ++ "_chunk_" ++ toString (chunk_idx + st.chunks.length),
    file_path := doc.filepath,
    content := joinNl st.current_chunk_lines,
    rendered_text := renderSectionForLLM (joinNl st.current_chunk_lines),
    start_line := st.current_chunk_start,
    end_line := end_line,
    heading_context := headingContextForLine doc st.current_chunk_start,
    token_count := st.current_tokens,
    metadata := .partialSection }

/-- The loop of `_split_large_section` folded over the section lines. -/
def splitFoldFinal (tc : String → Nat) (chunk_size overlap_size : Nat)
    (doc : MDXDocument) (chunk_idx : Nat) (content : String) (start_line : Nat) :
    SplitState :=
  (splitNl content).foldl (splitStep tc chunk_size overlap_size doc chunk_idx)
    { chunks := [], current_chunk_lines := [], current_chunk_start := start_line,
      current_tokens := 0 }

/-- `DocumentChunker._split_large_section` (chunker.py lines 145-208):
fold the loop over the section's lines, then emit the final buffer (with
the section's `end_line`) if nonempty. -/
def splitLargeSection (tc : String → Nat) (chunk_size overlap_size : Nat)
    (doc : MDXDocument) (content : String) (start_line end_line : Nat)
    (chunk_idx : Nat) : List DocumentChunk :=
  if (splitFoldFinal tc chunk_size overlap_size doc chunk_idx content start_line).current_chunk_lines ≠ [] then
    (splitFoldFinal tc chunk_size overlap_size doc chunk_idx content start_line).chunks ++
      [splitFinalChunk doc chunk_idx end_line
        (splitFoldFinal tc chunk_size overlap_size doc chunk_idx content start_line)]
  else
    (splitFoldFinal tc chunk_size overlap_size doc chunk_idx content start_line).chunks

/-- A section boundary of `_chunk_by_headings`. -/
structure Boundary where
  line : Nat
  level : Nat
  text : String
  deriving DecidableEq, Repr

/-- Stable insertion into a line-sorted boundary list. -/
def insertByLine (x : Boundary) : List Boundary → List Boundary
  | [] => [x]
  | y :: ys => if x.line < y.line then x :: y :: ys else y :: insertByLine x ys

/-- The stable `sort(key=lambda x: x['line'])` of `_chunk_by_headings`. -/
def sortByLine : List Boundary → List Boundary
  | [] => []
  | x :: xs => insertByLine x (sortByLine xs)

/-- The section slice `lines[section_start_line-1:section_end_line]` and
its joined content for a boundary pair (section start/end lines are
`current['line']` and `next_boundary['line'] - 1`; all boundary lines are
≥ 1 for parser-produced documents, so `Nat` subtraction is exact). -/
def sectionContentOf (lines : List String) (bp : Boundary × Boundary) : String :=
  joinNl ((lines.drop (bp.1.line - 1)).take (bp.2.line - 1 + 1 - bp.1.line))

/-- The chunk built for a section that fits the budget
(chunker.py lines 114-134). -/
def sectionChunk (tc : String → Nat) (doc : MDXDocument) (lines : List String)
    (bp : Boundary × Boundary) (chunk_idx : Nat) : DocumentChunk :=
  { chunk_id := doc.filepath ++ "_chunk_" ++ toString chunk_idx,
    file_path := doc.filepath,
    content := sectionContentOf lines bp,
    rendered_text := renderSectionForLLM (sectionContentOf lines bp),
    start_line := bp.1.line,
    end_line := bp.2.line - 1,
    heading_context := headingContextForLine doc bp.1.line,
    token_count := tc (sectionContentOf lines bp),
    metadata := .completeSection bp.1.text bp.1.level }

/-- One iteration of the section loop of `_chunk_by_headings`
(chunker.py lines 97-141) on a consecutive boundary pair, with state
`(chunks so far, chunk_idx)`. -/
def sectionStep (tc : String → Nat) (chunk_size overlap_size : Nat)
    (doc : MDXDocument) (lines : List String)
    (st : List DocumentChunk × Nat) (bp : Boundary × Boundary) :
    List DocumentChunk × Nat :=
  if pyStrip (sectionContentOf lines bp) = "" then st
  else if tc (sectionContentOf lines bp) ≤ chunk_size then
    (st.1 ++ [sectionChunk tc doc lines bp st.2], st.2 + 1)
  else
    (st.1 ++ splitLargeSection tc chunk_size overlap_size doc
        (sectionContentOf lines bp) bp.1.line (bp.2.line - 1) st.2,
      st.2 + (splitLargeSection tc chunk_size overlap_size doc
        (sectionContentOf lines bp) bp.1.line (bp.2.line - 1) st.2).length)

/-- The boundary list `[document start] ++ sorted headings ++ [document
end]` of `_chunk_by_headings` (chunker.py lines 77-92). -/
def sectionBoundaries (doc : MDXDocument) : List Boundary :=
  ⟨1, 0, "Document Start"⟩ ::
    (sortByLine (doc.headings.map fun h => ⟨h.line_start, h.level, h.text⟩) ++
      [⟨(splitNl doc.body_content).length + 1, 0, "Document End"⟩])

/-- `DocumentChunker._chunk_by_headings` (chunker.py lines 72-143). -/
def chunkByHeadings (tc : String → Nat) (chunk_size overlap_size : Nat)
    (doc : MDXDocument) : List DocumentChunk :=
  (((sectionBoundaries doc).zip (sectionBoundaries doc).tail).foldl
    (sectionStep tc chunk_size overlap_size doc (splitNl doc.body_content)) ([], 0)).1

/-- `DocumentChunker.chunk_document` (chunker.py lines 42-70): a document
whose rendered text fits the budget becomes a single whole-body chunk;
otherwise chunking proceeds by heading boundaries. -/
def chunkDocument (tc : String → Nat) (chunk_size overlap_size : Nat)
    (doc : MDXDocument) : List DocumentChunk :=
  if tc (toRenderedText doc true) ≤ chunk_size then
    [{ chunk_id := doc.filepath ++ "_chunk_0",
       file_path := doc.filepath,
       content := doc.body_content,
       rendered_text := toRenderedText doc true,
       start_line := 1,
       end_line := (splitNl doc.body_content).length,
       heading_context := documentHeadingContext doc,
       token_count := tc (toRenderedText doc true),
       metadata := .completeDocument doc.headings.length doc.links.length
         doc.code_blocks.length }]
  else chunkByHeadings tc chunk_size overlap_size doc

/-! ### Claim C4 -/

/-- The raw text of the C4 counterexample: a document whose frontmatter
block is malformed YAML (an unclosed flow sequence, on which
`frontmatter.loads` raises a `ScannerError`) followed by a heading.
`frontmatter.loads` succeeds on every other input used here, which the
oracle below reflects by failing exactly on this document. -/
def malformedFrontmatterDoc : String :=
  "---\ntitle: [unclosed\n---\n# Title"

/-- A frontmatter oracle raising exactly on the malformed document. -/
def fmFailingOnMalformed : String → Option (FMData × String) := fun s =>
  if s = malformedFrontmatterDoc then none else some ({}, s)

/-- C4 counterexample: the claim asserts that on an internal parse failure
the returned document has the raw text as body and ZERO extracted
elements; but the fallback branch of `_parse` re-runs `_parse_body` on
the raw text, so for the malformed-frontmatter document
`"---\ntitle: [unclosed\n---\n# Title"` (on which `frontmatter.loads`
raises) the returned document has one heading. -/
theorem C4_parser_degradation_counterexample :
    ¬ ((mdxParse fmFailingOnMalformed "doc.md" malformedFrontmatterDoc).body_content
          = malformedFrontmatterDoc ∧
       (mdxParse fmFailingOnMalformed "doc.md" malformedFrontmatterDoc).headings = [] ∧
       (mdxParse fmFailingOnMalformed "doc.md" malformedFrontmatterDoc).links = [] ∧
       (mdxParse fmFailingOnMalformed "doc.md" malformedFrontmatterDoc).images = [] ∧
       (mdxParse fmFailingOnMalformed "doc.md" malformedFrontmatterDoc).code_blocks = [] ∧
       (mdxParse fmFailingOnMalformed "doc.md" malformedFrontmatterDoc).inline_code = []) := by
  decide

/-- C4 (amended): `parse` returns a document for every input (total in
the embedding), and whenever the internal frontmatter parse fails the
returned document has the entire raw text as its body, empty frontmatter,
and the element lists produced by re-running the body parser on the raw
text (not zero elements) — equivalently, the fallback result coincides
with parsing the raw text as a frontmatter-less body. -/
theorem C4_parser_degradation_amended
    (fm : String → Option (FMData × String)) (filepath raw : String)
    (hfail : fm raw = none) :
    mdxParse fm filepath raw =
      { filepath := filepath, raw_content := raw, frontmatter_data := {},
        body_content := raw,
        headings := (parseBodyElements raw).headings,
        links := (parseBodyElements raw).links,
        images := (parseBodyElements raw).images,
        code_blocks := (parseBodyElements raw).code_blocks,
        inline_code := (parseBodyElements raw).inline_code,
        elements := parseParagraphs (splitNl raw) } ∧
    mdxParse fm filepath raw = mdxParse (fun s => some ({}, s)) filepath raw := by
  constructor
  · unfold mdxParse
    rw [hfail]
    rfl
  · unfold mdxParse
    rw [hfail]

/-- Witness for C4 (amended) at the concrete malformed-frontmatter
document. -/
theorem C4_parser_degradation_amended_witness :
    mdxParse fmFailingOnMalformed "doc.md" malformedFrontmatterDoc =
      { filepath := "doc.md", raw_content := malformedFrontmatterDoc,
        frontmatter_data := {},
        body_content := malformedFrontmatterDoc,
        headings := (parseBodyElements malformedFrontmatterDoc).headings,
        links := (parseBodyElements malformedFrontmatterDoc).links,
        images := (parseBodyElements malformedFrontmatterDoc).images,
        code_blocks := (parseBodyElements malformedFrontmatterDoc).code_blocks,
        inline_code := (parseBodyElements malformedFrontmatterDoc).inline_code,
        elements := parseParagraphs (splitNl malformedFrontmatterDoc) } ∧
    mdxParse fmFailingOnMalformed "doc.md" malformedFrontmatterDoc =
      mdxParse (fun s => some ({}, s)) "doc.md" malformedFrontmatterDoc :=
  C4_parser_degradation_amended fmFailingOnMalformed "doc.md"
    malformedFrontmatterDoc (by decide)

/-! ### Claim C7 -/

theorem splitStep_pos (tc : String → Nat) (cs ov : Nat) (doc : MDXDocument)
    (idx : Nat) (st : SplitState) (line : String)
    (h : st.current_tokens + tc line > cs ∧ st.current_chunk_lines ≠ []) :
    splitStep tc cs ov doc idx st line =
      { chunks := st.chunks ++ [splitEmitChunk doc idx st],
        current_chunk_lines := overlapLines ov st ++ [line],
        current_chunk_start :=
          st.current_chunk_start + (overlapLines ov st ++ [line]).length -
            (overlapLines ov st).length - 1,
        current_tokens := ((overlapLines ov st ++ [line]).map tc).sum } := by
  unfold splitStep
  rw [if_pos h]

theorem splitStep_neg (tc : String → Nat) (cs ov : Nat) (doc : MDXDocument)
    (idx : Nat) (st : SplitState) (line : String)
    (h : ¬ (st.current_tokens + tc line > cs ∧ st.current_chunk_lines ≠ [])) :
    splitStep tc cs ov doc idx st line =
      { st with current_chunk_lines := st.current_chunk_lines ++ [line],
                current_tokens := st.current_tokens + tc line } := by
  unfold splitStep
  rw [if_neg h]

/-- Every chunk produced by `_split_large_section` carries the
`is_partial_section` metadata. -/
theorem splitStep_chunks_shape (tc : String → Nat) (cs ov : Nat)
    (doc : MDXDocument) (idx : Nat) (st : SplitState) (line : String) :
    (splitStep tc cs ov doc idx st line).chunks = st.chunks ∨
    (splitStep tc cs ov doc idx st line).chunks =
      st.chunks ++ [splitEmitChunk doc idx st] := by
  by_cases h : st.current_tokens + tc line > cs ∧ st.current_chunk_lines ≠ []
  · rw [splitStep_pos tc cs ov doc idx st line h]
    exact Or.inr rfl
  · rw [splitStep_neg tc cs ov doc idx st line h]
    exact Or.inl rfl

theorem splitFold_meta (tc : String → Nat) (cs ov : Nat) (doc : MDXDocument)
    (idx : Nat) (lines : List String) (st : SplitState)
    (h : ∀ c ∈ st.chunks, c.metadata = ChunkMeta.partialSection) :
    ∀ c ∈ (lines.foldl (splitStep tc cs ov doc idx) st).chunks,
      c.metadata = ChunkMeta.partialSection := by
  induction lines generalizing st with
  | nil => exact h
  | cons line rest ih =>
    refine ih (splitStep tc cs ov doc idx st line) ?_
    rcases splitStep_chunks_shape tc cs ov doc idx st line with hs | hs <;> rw [hs]
    · exact h
    · intro c hc
      rcases List.mem_append.mp hc with hc | hc
      · exact h c hc
      · rw [List.mem_singleton.mp hc]
        rfl

theorem splitFoldFinal_meta (tc : String → Nat) (cs ov : Nat)
    (doc : MDXDocument) (idx : Nat) (content : String) (s : Nat) :
    ∀ c ∈ (splitFoldFinal tc cs ov doc idx content s).chunks,
      c.metadata = ChunkMeta.partialSection := by
  unfold splitFoldFinal
  refine splitFold_meta tc cs ov doc idx _ _ ?_
  intro c hc
  simp at hc

theorem splitLargeSection_meta (tc : String → Nat) (cs ov : Nat)
    (doc : MDXDocument) (content : String) (s e idx : Nat) :
    ∀ c ∈ splitLargeSection tc cs ov doc content s e idx,
      c.metadata = ChunkMeta.partialSection := by
  intro c hc
  unfold splitLargeSection at hc
  split_ifs at hc with h
  · rcases List.mem_append.mp hc with hc | hc
    · exact splitFoldFinal_meta tc cs ov doc idx content s c hc
    · rw [List.mem_singleton.mp hc]
      rfl
  · exact splitFoldFinal_meta tc cs ov doc idx content s c hc

/-- Invariant of the `_split_large_section` loop: the first emitted chunk
(if any) was within budget or is a single line of the section; while no
chunk has been emitted, the running buffer is within budget or is a
single line. -/
def splitHeadOK (chunk_size : Nat) (lines0 : List String)
    (st : SplitState) : Prop :=
  (∀ c, st.chunks.head? = some c →
    c.token_count ≤ chunk_size ∨ ∃ l ∈ lines0, c.content = l) ∧
  (st.chunks = [] →
    st.current_tokens ≤ chunk_size ∨ ∃ l ∈ lines0, st.current_chunk_lines = [l])

theorem splitStep_headOK (tc : String → Nat) (cs ov : Nat) (doc : MDXDocument)
    (idx : Nat) (lines0 : List String) (st : SplitState) (line : String)
    (hline : line ∈ lines0) (hok : splitHeadOK cs lines0 st) :
    splitHeadOK cs lines0 (splitStep tc cs ov doc idx st line) := by
  by_cases h : st.current_tokens + tc line > cs ∧ st.current_chunk_lines ≠ []
  · rw [splitStep_pos tc cs ov doc idx st line h]
    constructor
    · intro c hc
      cases hchunks : st.chunks with
      | nil =>
        rw [hchunks] at hc
        simp only [List.nil_append, List.head?_cons, Option.some.injEq] at hc
        subst hc
        rcases hok.2 hchunks with hb | ⟨l, hl, hbuf⟩
        · exact Or.inl hb
        · refine Or.inr ⟨l, hl, ?_⟩
          show joinNl st.current_chunk_lines = l
          rw [hbuf]
          rfl
      | cons c0 rest =>
        rw [hchunks] at hc
        simp only [List.cons_append, List.head?_cons, Option.some.injEq] at hc
        subst hc
        refine hok.1 c0 ?_
        rw [hchunks]
        rfl
    · intro hcontr
      simp at hcontr
  · rw [splitStep_neg tc cs ov doc idx st line h]
    constructor
    · intro c hc
      exact hok.1 c hc
    · intro hchunks
      rw [not_and_or] at h
      rcases h with h | h
      · refine Or.inl ?_
        show st.current_tokens + tc line ≤ cs
        omega
      · rw [not_not] at h
        refine Or.inr ⟨line, hline, ?_⟩
        show st.current_chunk_lines ++ [line] = [line]
        rw [h]
        rfl

theorem splitFold_headOK (tc : String → Nat) (cs ov : Nat) (doc : MDXDocument)
    (idx : Nat) (lines0 : List String) (lines : List String) (st : SplitState)
    (hsub : ∀ l ∈ lines, l ∈ lines0) (hok : splitHeadOK cs lines0 st) :
    splitHeadOK cs lines0 (lines.foldl (splitStep tc cs ov doc idx) st) := by
  induction lines generalizing st with
  | nil => exact hok
  | cons line rest ih =>
    exact ih _ (fun l hl => hsub l (List.mem_cons_of_mem line hl))
      (splitStep_headOK tc cs ov doc idx lines0 st line
        (hsub line (List.mem_cons_self line rest)) hok)

theorem splitFoldFinal_headOK (tc : String → Nat) (cs ov : Nat)
    (doc : MDXDocument) (idx : Nat) (content : String) (s : Nat) :
    splitHeadOK cs (splitNl content) (splitFoldFinal tc cs ov doc idx content s) := by
  unfold splitFoldFinal
  refine splitFold_headOK tc cs ov doc idx _ _ _ (fun l hl => hl) ?_
  constructor
  · intro c hc
    simp at hc
  · intro _
    exact Or.inl (Nat.zero_le cs)

theorem splitLargeSection_head (tc : String → Nat) (cs ov : Nat)
    (doc : MDXDocument) (content : String) (s e idx : Nat) (c : DocumentChunk)
    (h : (splitLargeSection tc cs ov doc content s e idx).head? = some c) :
    c.token_count ≤ cs ∨ ∃ l ∈ splitNl content, c.content = l := by
  have hok := splitFoldFinal_headOK tc cs ov doc idx content s
  unfold splitLargeSection at h
  split_ifs at h with hne
  · cases hchunks : (splitFoldFinal tc cs ov doc idx content s).chunks with
    | nil =>
      rw [hchunks] at h
      simp only [List.nil_append, List.head?_cons, Option.some.injEq] at h
      subst h
      rcases hok.2 hchunks with hb | ⟨l, hl, hbuf⟩
      · exact Or.inl hb
      · refine Or.inr ⟨l, hl, ?_⟩
        show joinNl (splitFoldFinal tc cs ov doc idx content s).current_chunk_lines = l
        rw [hbuf]
        rfl
    | cons c0 rest =>
      rw [hchunks] at h
      simp only [List.cons_append, List.head?_cons, Option.some.injEq] at h
      subst h
      refine hok.1 c0 ?_
      rw [hchunks]
      rfl
  · exact hok.1 c h

/-- Completed-section chunks respect the budget (the branch guard of
`_chunk_by_headings`). -/
theorem sectionStep_complete_bound (tc : String → Nat) (cs ov : Nat)
    (doc : MDXDocument) (lines : List String)
    (st : List DocumentChunk × Nat) (bp : Boundary × Boundary)
    (h : ∀ c ∈ st.1, (∃ t lv, c.metadata = ChunkMeta.completeSection t lv) →
      c.token_count ≤ cs) :
    ∀ c ∈ (sectionStep tc cs ov doc lines st bp).1,
      (∃ t lv, c.metadata = ChunkMeta.completeSection t lv) → c.token_count ≤ cs := by
  intro c hc hmeta
  unfold sectionStep at hc
  split_ifs at hc with h1 h2
  · exact h c hc hmeta
  · rcases List.mem_append.mp hc with hc | hc
    · exact h c hc hmeta
    · rw [List.mem_singleton.mp hc]
      exact h2
  · rcases List.mem_append.mp hc with hc | hc
    · exact h c hc hmeta
    · exfalso
      have := splitLargeSection_meta tc cs ov doc _ _ _ _ c hc
      rcases hmeta with ⟨t, lv, hm⟩
      rw [this] at hm
      cases hm

theorem sectionFold_complete_bound (tc : String → Nat) (cs ov : Nat)
    (doc : MDXDocument) (lines : List String)
    (pairs : List (Boundary × Boundary)) (st0 : List DocumentChunk × Nat)
    (hinv : ∀ c ∈ st0.1, (∃ t lv, c.metadata = ChunkMeta.completeSection t lv) →
      c.token_count ≤ cs) :
    ∀ c ∈ (pairs.foldl (sectionStep tc cs ov doc lines) st0).1,
      (∃ t lv, c.metadata = ChunkMeta.completeSection t lv) → c.token_count ≤ cs := by
  induction pairs generalizing st0 with
  | nil => exact hinv
  | cons bp rest ih =>
    exact ih _ (sectionStep_complete_bound tc cs ov doc lines st0 bp hinv)

theorem chunkByHeadings_complete_bound (tc : String → Nat) (cs ov : Nat)
    (doc : MDXDocument) :
    ∀ c ∈ chunkByHeadings tc cs ov doc,
      (∃ t lv, c.metadata = ChunkMeta.completeSection t lv) → c.token_count ≤ cs := by
  unfold chunkByHeadings
  refine sectionFold_complete_bound tc cs ov doc _ _ _ ?_
  intro c hc
  simp at hc

/-- C7 counterexample: with a tokenizer counting characters, budget 5 and
overlap 100, the document `"aaa\nbbb\nccc"` produces a forced-split chunk
`"aaa\nbbb"` with `token_count = 6 > 5` that spans two lines, violating
the claimed bound and not being a single irreducible line. -/
theorem C7_chunk_budget_counterexample :
    ¬ (∀ c ∈ chunkDocument (fun s => s.length) 5 100
          (mdxParse (fun _ => none) "f.md" "aaa\nbbb\nccc"),
        c.token_count ≤ 5 ∨
          ((splitNl c.content).length = 1 ∧ c.token_count > 5)) := by
  decide

/-- C7 (amended): the token bound `token_count ≤ chunk_size` holds for the
single-chunk case and for every complete-section chunk; in the
forced-split case only the FIRST chunk of each oversized section is
guaranteed to be within budget or a single irreducible line — later
forced-split chunks are seeded with an overlap suffix whose token count is
not re-checked and can exceed the budget even with several lines. -/
theorem C7_chunk_budget_amended (tc : String → Nat) (chunk_size overlap_size : Nat)
    (doc : MDXDocument) :
    (tc (toRenderedText doc true) ≤ chunk_size →
      ∀ c ∈ chunkDocument tc chunk_size overlap_size doc,
        c.token_count ≤ chunk_size) ∧
    (∀ c ∈ chunkByHeadings tc chunk_size overlap_size doc,
      (∃ t lv, c.metadata = ChunkMeta.completeSection t lv) →
      c.token_count ≤ chunk_size) ∧
    (∀ (content : String) (s e idx : Nat) (c : DocumentChunk),
      (splitLargeSection tc chunk_size overlap_size doc content s e idx).head? = some c →
      c.token_count ≤ chunk_size ∨ ∃ l ∈ splitNl content, c.content = l) := by
  refine ⟨?_, chunkByHeadings_complete_bound tc chunk_size overlap_size doc,
    fun content s e idx c h =>
      splitLargeSection_head tc chunk_size overlap_size doc content s e idx c h⟩
  intro h c hc
  unfold chunkDocument at hc
  rw [if_pos h] at hc
  rw [List.mem_singleton.mp hc]
  exact h

/-- Witness for C7 (amended): a document fitting the budget has all
chunks within it. -/
theorem C7_chunk_budget_amended_witness :
    ∀ c ∈ chunkDocument (fun s => s.length) 2000 200
        (mdxParse (fun _ => none) "f.md" "hello\nworld"),
      c.token_count ≤ 2000 :=
  (C7_chunk_budget_amended (fun s => s.length) 2000 200
    (mdxParse (fun _ => none) "f.md" "hello\nworld")).1 (by decide)

/-! ### Claim C8 -/

/-- C8: when the whole rendered text fits the budget, `chunk_document`
returns exactly one chunk spanning the whole body, with `start_line = 1`
and `end_line` the number of body lines. -/
theorem C8_single_chunk_case (tc : String → Nat) (chunk_size overlap_size : Nat)
    (doc : MDXDocument) (h : tc (toRenderedText doc true) ≤ chunk_size) :
    ∃ c : DocumentChunk,
      chunkDocument tc chunk_size overlap_size doc = [c] ∧
      c.start_line = 1 ∧
      c.end_line = (splitNl doc.body_content).length ∧
      c.content = doc.body_content := by
  refine ⟨{ chunk_id := doc.filepath ++ "_chunk_0",
            file_path := doc.filepath,
            content := doc.body_content,
            rendered_text := toRenderedText doc true,
            start_line := 1,
            end_line := (splitNl doc.body_content).length,
            heading_context := documentHeadingContext doc,
            token_count := tc (toRenderedText doc true),
            metadata := .completeDocument doc.headings.length doc.links.length
              doc.code_blocks.length }, ?_, rfl, rfl, rfl⟩
  unfold chunkDocument
  rw [if_pos h]

/-- Witness for C8 at a concrete small document. -/
theorem C8_single_chunk_case_witness :
    ∃ c : DocumentChunk,
      chunkDocument (fun s => s.length) 2000 200
          (mdxParse (fun _ => none) "f.md" "hello\nworld") = [c] ∧
      c.start_line = 1 ∧
      c.end_line =
        (splitNl (mdxParse (fun _ => none) "f.md" "hello\nworld").body_content).length ∧
      c.content = (mdxParse (fun _ => none) "f.md" "hello\nworld").body_content :=
  C8_single_chunk_case (fun s => s.length) 2000 200
    (mdxParse (fun _ => none) "f.md" "hello\nworld") (by decide)

/-! ### URL extraction (src/docsqa/backend/core/linkcheck.py,
`extract_urls_from_text`, lines 263-286) -/

/-- A character admitted by the direct-URL body class
`[^\s<>"\x27\x29]+` (everything but whitespace, `<`, `>`, double quote,
apostrophe — code 39 — and closing parenthesis). -/
def isUrlChar (c : Char) : Bool :=
  ¬ (isPySpace c ∨ c = '<' ∨ c = '>' ∨ c = '"' ∨ c.toNat = 39 ∨ c = ')')

/-- Match of `https?://[^\s<>"\x27\x29]+|www\.[^\s<>"\x27\x29]+` anchored
at the head of the input: a fixed prefix (the greedy `s?` is equivalent
to trying `https://` before `http://`) followed by at least one URL
character.  No prefix overlaps another, so the alternation is
deterministic. -/
def tryMatchDirectUrl (cs : List Char) : Option (String × List Char) :=
  if "https://".data.isPrefixOf cs then
    urlTail "https://" (cs.drop 8)
  else if "http://".data.isPrefixOf cs then
    urlTail "http://" (cs.drop 7)
  else if "www.".data.isPrefixOf cs then
    urlTail "www." (cs.drop 4)
  else none
where
  urlTail (pre : String) (rest : List Char) : Option (String × List Char) :=
    if rest.takeWhile isUrlChar = [] then none
    else some (pre ++ String.mk (rest.takeWhile isUrlChar),
      rest.drop (rest.takeWhile isUrlChar).length)

/-- The `re.finditer` scan for direct URLs (fuel-indexed). -/
def findDirectUrlsAux : Nat → List Char → List String
  | 0, _ => []
  | _, [] => []
  | fuel + 1, c :: cs =>
    match tryMatchDirectUrl (c :: cs) with
    | some (u, rest) => u :: findDirectUrlsAux fuel rest
    | none => findDirectUrlsAux fuel cs

/-- All direct-URL matches in a text. -/
def findDirectUrls (text : String) : List String :=
  findDirectUrlsAux text.data.length text.data

/-- First-occurrence deduplication of a string list (seen-set form). -/
def dedupFirstAux (seen : List String) : List String → List String
  | [] => []
  | x :: xs =>
    if seen.contains x then dedupFirstAux seen xs
    else x :: dedupFirstAux (x :: seen) xs

/-- First-occurrence deduplication of a string list. -/
def dedupFirstOccurrence (l : List String) : List String :=
  dedupFirstAux [] l

/-- `extract_urls_from_text` (linkcheck.py lines 263-286): the markdown
link targets (`group(2)` of the link regex over the whole text), then the
direct-URL matches not already among the markdown targets, deduplicated.
Python returns `list(set(urls))`, whose iteration order is unspecified;
the embedding normalises to first-occurrence order — every consumer
(`_validate_links`, `_extract_all_links`) treats the result as a set. -/
def extractUrlsFromText (text : String) : List String :=
  dedupFirstOccurrence
    (((findLinks text).map Prod.snd) ++
      ((findDirectUrls text).filter fun u => ¬ ((findLinks text).map Prod.snd).contains u))

/-! ### Version extraction (src/docsqa/backend/core/version_resolver.py,
`extract_versions_from_text`, lines 147-182) -/

/-- Case-insensitive literal match (`re.IGNORECASE`, ASCII), returning
the rest of the input. -/
def litCI : List Char → List Char → Option (List Char)
  | [], cs => some cs
  | _ :: _, [] => none
  | p :: ps, c :: cs => if p.toLower = c.toLower then litCI ps cs else none

/-- `\s+`: at least one whitespace character, greedily. -/
def ws1 (cs : List Char) : Option (List Char) :=
  if cs.takeWhile isPySpace = [] then none
  else some (cs.dropWhile isPySpace)

/-- Capture of the full version group
`([0-9]+(?:\.[0-9]+)*(?:\.[0-9]+)*(?:[a-zA-Z][0-9]*)?)` at the head. -/
def captureV (cs : List Char) : Option (String × List Char) :=
  if matchVersionLen cs = 0 then none
  else some (String.mk (cs.take (matchVersionLen cs)), cs.drop (matchVersionLen cs))

/-- Length of the match of `[0-9]+(?:\.[0-9]+)*(?:\.[0-9]+)*` (the
version group without the letter suffix) at the head, or 0. -/
def matchVersion2Len (cs : List Char) : Nat :=
  if digitsLen cs = 0 then 0
  else digitsLen cs +
    dotGroupsLen (cs.drop (digitsLen cs)).length (cs.drop (digitsLen cs))

/-- Capture of the suffix-less version group at the head. -/
def captureV2 (cs : List Char) : Option (String × List Char) :=
  if matchVersion2Len cs = 0 then none
  else some (String.mk (cs.take (matchVersion2Len cs)), cs.drop (matchVersion2Len cs))

/-- Pattern 1, `pip\s+install\s+{pkg}==(V)`. -/
def patPipInstall (pkg : String) (cs : List Char) : Option (String × List Char) :=
  (litCI "pip".data cs).bind fun r1 =>
  (ws1 r1).bind fun r2 =>
  (litCI "install".data r2).bind fun r3 =>
  (ws1 r3).bind fun r4 =>
  (litCI pkg.data r4).bind fun r5 =>
  (litCI "==".data r5).bind captureV

/-- Pattern 2, `{pkg}==(V)` (requirements style). -/
def patRequirements (pkg : String) (cs : List Char) : Option (String × List Char) :=
  (litCI pkg.data cs).bind fun r1 =>
  (litCI "==".data r1).bind captureV

/-- Pattern 3, `"{pkg}"\s*=\s*"(V2)"` (poetry/pipenv style). -/
def patPoetry (pkg : String) (cs : List Char) : Option (String × List Char) :=
  (litCI ("\"" ++ pkg ++ "\"").data cs).bind fun r1 =>
  (litCI "=".data (r1.dropWhile isPySpace)).bind fun r2 =>
  (litCI "\"".data (r2.dropWhile isPySpace)).bind fun r3 =>
  (captureV2 r3).bind fun vr =>
  (litCI "\"".data vr.2).map fun r4 => (vr.1, r4)

/-- Pattern 4, `conda\s+install\s+{pkg}=(V2)`. -/
def patConda (pkg : String) (cs : List Char) : Option (String × List Char) :=
  (litCI "conda".data cs).bind fun r1 =>
  (ws1 r1).bind fun r2 =>
  (litCI "install".data r2).bind fun r3 =>
  (ws1 r3).bind fun r4 =>
  (litCI pkg.data r4).bind fun r5 =>
  (litCI "=".data r5).bind captureV2

/-- Pattern 5, `#\s*{pkg}\s+version\s+(V2)` (version in comments). -/
def patComment (pkg : String) (cs : List Char) : Option (String × List Char) :=
  (litCI "#".data cs).bind fun r1 =>
  (litCI pkg.data (r1.dropWhile isPySpace)).bind fun r2 =>
  (ws1 r2).bind fun r3 =>
  (litCI "version".data r3).bind fun r4 =>
  (ws1 r4).bind captureV2

/-- Pattern 6, `{pkg}\s+(?:version\s+)?(V2)` (general mention).  The
optional group is greedy: the variant with `version\s+` is tried first
and the engine falls back to the bare version on failure. -/
def patGeneral (pkg : String) (cs : List Char) : Option (String × List Char) :=
  (litCI pkg.data cs).bind fun r1 =>
  (ws1 r1).bind fun r2 =>
    match (litCI "version".data r2).bind fun r3 => (ws1 r3).bind captureV2 with
    | some vr => some vr
    | none => captureV2 r2

/-- The `re.finditer` scan of one version pattern over a line: leftmost
non-overlapping matches, resuming after each match end (fuel-indexed). -/
def findPatAux (pat : List Char → Option (String × List Char)) :
    Nat → List Char → List String
  | 0, _ => []
  | _, [] => []
  | fuel + 1, c :: cs =>
    match pat (c :: cs) with
    | some (v, rest) => v :: findPatAux pat fuel rest
    | none => findPatAux pat fuel cs

/-- All captures of one pattern in a line. -/
def findPat (pat : List Char → Option (String × List Char)) (line : String) :
    List String :=
  findPatAux pat line.data.length line.data

/-- One extracted version reference; the `match_pattern`/`match_start`/
`match_end` echo fields of the source dictionary are omitted (no embedded
consumer reads them). -/
structure VersionRef where
  version : String
  line_number : Nat
  line_content : String
  deriving DecidableEq, Repr

/-- `VersionResolver.extract_versions_from_text` (version_resolver.py
lines 147-182): for each line (1-indexed), each of the six patterns in
order contributes its matches. -/
def extractVersionsFromText (text : String) (package_name : String) :
    List VersionRef :=
  ((splitNl text).enum.map fun il => (il.1 + 1, il.2)).foldl
    (fun acc p =>
      acc ++
        (([patPipInstall package_name, patRequirements package_name,
           patPoetry package_name, patConda package_name,
           patComment package_name, patGeneral package_name].map
            fun pat => (findPat pat p.2).map fun v =>
              ({ version := v, line_number := p.1,
                 line_content := pyStrip p.2 } : VersionRef)).flatten))
    []

/-! ### The snippet-based link and version checks of the Verifier
(verifier.py lines 230-287) -/

/-- `Verifier._validate_links` (verifier.py lines 230-258): extract the
snippets, compute the URLs present in the modified snippet but not the
original, and if there are any, add a note and check them through the
external link checker (`check_urls_batch` with the fixed base URL and
timeout, abstracted as `check_urls`, whose association list also fixes
the dictionary iteration order); each invalid result adds a warning. -/
def validateLinks (check_urls : List String → List (String × LinkResult))
    (patchLines : List String) (result : VerificationResult) :
    VerificationResult :=
  match extractSnippetFromPatch patchLines with
  | none => result
  | some sn =>
    if (extractUrlsFromText sn.modified).filter
        (fun u => ¬ (extractUrlsFromText sn.original).contains u) = [] then
      result
    else
      (check_urls ((extractUrlsFromText sn.modified).filter
          (fun u => ¬ (extractUrlsFromText sn.original).contains u))).foldl
        (fun r p =>
          if p.2.is_valid = false then
            r.add_warning ("New link may be broken: " ++ p.1 ++ " (" ++
              pyStrOptStr p.2.error_message ++ ")")
          else r)
        (result.add_note ("Patch adds " ++
          toString ((extractUrlsFromText sn.modified).filter
            (fun u => ¬ (extractUrlsFromText sn.original).contains u)).length ++
          " new links"))

/-- `Verifier._validate_versions` (verifier.py lines 260-287): extract
the snippets and warn for each version reference of the modified snippet
whose string the external `packaging.version.parse` (abstracted as
`version_parse_ok`) rejects.  (The original snippet's versions are
computed by the source but never used.) -/
def validateVersions (version_parse_ok : String → Bool) (package_name : String)
    (patchLines : List String) (result : VerificationResult) :
    VerificationResult :=
  match extractSnippetFromPatch patchLines with
  | none => result
  | some sn =>
    (extractVersionsFromText sn.modified package_name).foldl
      (fun r vr =>
        if version_parse_ok vr.version then r
        else r.add_warning ("Version format may be invalid: " ++ vr.version))
      result

/-! ### Claim C10 -/

/-- C10: `extract_snippet_from_patch` returns `None` when parsing fails,
when there is no file change, or when the first change has no hunks; when
the first change has a first hunk, the snippets are exactly that hunk's
context/removed and context/added lines — later hunks and later changes
never influence the result; and each of the Verifier's snippet-based
checks — markdown consistency, whitespace churn, new-link validation and
version validation — depends on the patch only through
`extract_snippet_from_patch`, hence also inspects only the first hunk's
content. -/
theorem C10_snippets_first_hunk_only :
    (∀ patchLines : List String,
      (parseUnifiedDiff patchLines = none →
        extractSnippetFromPatch patchLines = none) ∧
      (parseUnifiedDiff patchLines = some [] →
        extractSnippetFromPatch patchLines = none) ∧
      (∀ c cs, parseUnifiedDiff patchLines = some (c :: cs) → c.hunks = [] →
        extractSnippetFromPatch patchLines = none)) ∧
    (∀ (patchLines : List String) (c : DiffChange) (cs : List DiffChange)
        (h0 : Hunk) (hs : List Hunk),
      parseUnifiedDiff patchLines = some (c :: cs) → c.hunks = h0 :: hs →
      extractSnippetFromPatch patchLines = some (snippetsOfHunk h0)) ∧
    (∀ p1 p2 : List String,
      extractSnippetFromPatch p1 = extractSnippetFromPatch p2 →
      ∀ (md : String → String) (allow_code_edits : Bool) (suggestion_type : String)
        (maxw : Nat) (r : VerificationResult),
        checkMarkdownConsistency md allow_code_edits suggestion_type p1 r =
          checkMarkdownConsistency md allow_code_edits suggestion_type p2 r ∧
        checkWhitespaceChurn maxw p1 r = checkWhitespaceChurn maxw p2 r) ∧
    (∀ p1 p2 : List String,
      extractSnippetFromPatch p1 = extractSnippetFromPatch p2 →
      ∀ (check_urls : List String → List (String × LinkResult))
        (version_parse_ok : String → Bool) (package_name : String)
        (r : VerificationResult),
        validateLinks check_urls p1 r = validateLinks check_urls p2 r ∧
        validateVersions version_parse_ok package_name p1 r =
          validateVersions version_parse_ok package_name p2 r) := by
  refine ⟨fun patchLines => ⟨fun h => ?_, fun h => ?_, fun c cs hp hh => ?_⟩,
    fun patchLines c cs h0 hs hp hh => ?_,
    fun p1 p2 h md ace stype maxw r => ⟨?_, ?_⟩,
    fun p1 p2 h cu vp pkg r => ⟨?_, ?_⟩⟩
  · unfold extractSnippetFromPatch
    rw [h]
  · unfold extractSnippetFromPatch
    rw [h]
  · unfold extractSnippetFromPatch
    rw [hp]
    dsimp only
    rw [hh]
  · unfold extractSnippetFromPatch
    rw [hp]
    dsimp only
    rw [hh]
  · unfold checkMarkdownConsistency
    rw [h]
  · unfold checkWhitespaceChurn
    rw [h]
  · unfold validateLinks
    rw [h]
  · unfold validateVersions
    rw [h]

/-- Witness for C10: a two-hunk diff whose snippets come from the first
hunk only. -/
theorem C10_snippets_first_hunk_only_witness :
    extractSnippetFromPatch
        ["--- a.md", "+++ b.md", "@@ -1,2 +1,2 @@", " ctx", "-old", "+new",
         "@@ -10,2 +10,2 @@", " c2", "-x", "+y"] =
      some (snippetsOfHunk
        ⟨1, 2, 1, 2, [⟨"context", "ctx"⟩, ⟨"removed", "old"⟩, ⟨"added", "new"⟩]⟩) :=
  C10_snippets_first_hunk_only.2.1
    ["--- a.md", "+++ b.md", "@@ -1,2 +1,2 @@", " ctx", "-old", "+new",
     "@@ -10,2 +10,2 @@", " c2", "-x", "+y"]
    ⟨"a.md", some "b.md",
      [⟨1, 2, 1, 2, [⟨"context", "ctx"⟩, ⟨"removed", "old"⟩, ⟨"added", "new"⟩]⟩,
       ⟨10, 2, 10, 2, [⟨"context", "c2"⟩, ⟨"removed", "x"⟩, ⟨"added", "y"⟩]⟩]⟩
    []
    ⟨1, 2, 1, 2, [⟨"context", "ctx"⟩, ⟨"removed", "old"⟩, ⟨"added", "new"⟩]⟩
    [⟨10, 2, 10, 2, [⟨"context", "c2"⟩, ⟨"removed", "x"⟩, ⟨"added", "y"⟩]⟩]
    (by decide) (by decide)

end DocsQA
